import Mathlib

/-!
# HTTPS client example: connection and request orchestration

A shallow embedding of `proj_cm33_ns/source/secure_http_client.c`.

* The file-scope variables of the C file are the fields of `Globals`.
* Every library call the C code makes is answered by a `World`: a script that
  fixes, per call site and call number, what the library returns.  Quantifying
  over all worlds covers every behaviour of the libraries.
* Every call that leaves the C file (library call, console output) is appended
  to a trace, together with the values the file-scope variables have at that
  moment.
-/

namespace HttpsClient

/-! ## Library types -/

/-- Result code of the libraries, a 32-bit unsigned value. -/
abbrev cy_rslt_t := Nat

/-- The success code of `cy_result.h`. -/
def CY_RSLT_SUCCESS : cy_rslt_t := 0

/-- Status of `Cy_SysInt_Init`. -/
abbrev cy_en_sysint_status_t := Nat

/-- The success status of `cy_sysint.h`. -/
def CY_SYSINT_SUCCESS : cy_en_sysint_status_t := 0

/-- Handle of an HTTP client instance (a pointer in C). -/
abbrev cy_http_client_t := Nat

/-- The request methods of the HTTP client library that the application names. -/
inductive cy_http_client_method_t where
  | CY_HTTP_CLIENT_METHOD_GET
  | CY_HTTP_CLIENT_METHOD_POST
  | CY_HTTP_CLIENT_METHOD_PUT
  | CY_HTTP_CLIENT_METHOD_HEAD
  deriving DecidableEq, Repr

open cy_http_client_method_t

/-- The buffers a request can point at; the application has one. -/
inductive Buffer where
  | http_get_buffer
  deriving DecidableEq, Repr

/-- Request header structure handed to the HTTP client library. -/
structure cy_http_client_request_header_t where
  buffer : Buffer
  buffer_len : Nat
  headers_len : Nat
  method : cy_http_client_method_t
  range_end : Int
  range_start : Int
  resource_path : String
  deriving DecidableEq, Repr

/-- One header field and value, with their lengths. -/
structure cy_http_client_header_t where
  field : String
  field_len : Nat
  value : String
  value_len : Nat
  deriving DecidableEq, Repr

/-- Response structure filled in by the HTTP client library. -/
structure cy_http_client_response_t where
  status_code : Nat
  buffer_len : Nat
  header : String
  headers_len : Nat
  header_count : Nat
  body : String
  body_len : Nat
  content_len : Nat
  deriving DecidableEq, Repr

/-- IP version tag of an address reported by the Wi-Fi connection manager (an
enumeration in C, held as its integer value). -/
abbrev cy_wcm_ip_version_t := Nat

/-- The IPv4 tag of `cy_wcm.h`. -/
def CY_WCM_IP_VER_V4 : cy_wcm_ip_version_t := 4

/-- The IPv6 tag of `cy_wcm.h`. -/
def CY_WCM_IP_VER_V6 : cy_wcm_ip_version_t := 6

/-- Address reported by the Wi-Fi connection manager. -/
structure cy_wcm_ip_address_t where
  version : cy_wcm_ip_version_t
  ip : Nat
  deriving DecidableEq, Repr

/-- TLS credentials handed to the HTTP client library. -/
structure cy_awsport_ssl_credentials_t where
  client_cert : String
  client_cert_size : Nat
  private_key : String
  private_key_size : Nat
  root_ca : String
  root_ca_size : Nat
  deriving DecidableEq, Repr

/-- Server the HTTP client talks to. -/
structure cy_awsport_server_info_t where
  host_name : String
  port : Nat
  deriving DecidableEq, Repr

/-! ## Constants -/

def LAST_INDEX : Nat := 1
def MEMSET_VAL : Nat := 0
def UART_RESULT_SUCCESS : Nat := 1
def INITIAL_VALUE : Nat := 0

/-- Size of a C string literal of ASCII characters: its characters and the terminator. -/
def sizeof (literal : String) : Nat := literal.length + 1

/-- Constants of `secure_http_client.h` and `secure_keys.h`, which are not among the
sources at hand; they are parameters of the model. -/
structure Config where
  MAX_WIFI_RETRY_COUNT : Nat
  WIFI_SSID : String
  HTTPS_SERVER_HOST : String
  HTTPS_PORT : Nat
  HTTP_PATH : String
  HTTP_GET_PATH_AFTER_PUT : String
  HTTP_GET_BUFFER_LENGTH : Nat
  HTTP_REQUEST_HEADER_LEN : Nat
  HTTP_REQUEST_RANGE_START : Int
  HTTP_REQUEST_RANGE_END : Int
  NUM_HTTP_HEADERS : Nat
  REQUEST_BODY : String
  REQUEST_BODY_LENGTH : Nat
  TRANSPORT_SEND_RECV_TIMEOUT_MS : Nat
  MENU_HTTPS_METHOD : String
  keyCLIENT_CERTIFICATE_PEM : String
  keyCLIENT_PRIVATE_KEY_PEM : String
  keySERVER_ROOTCA_PEM : String

/-- Modelled from the spec: the selector constant `HTTPS_GET_METHOD` of the absent
`secure_http_client.h`; the operator selects GET with 1. -/
def HTTPS_GET_METHOD : Nat := 1

/-- Modelled from the spec: the selector constant `HTTPS_POST_METHOD` of the absent
`secure_http_client.h`; the operator selects POST with 2. -/
def HTTPS_POST_METHOD : Nat := 2

/-- Modelled from the spec: the selector constant `HTTPS_PUT_METHOD` of the absent
`secure_http_client.h`; the operator selects PUT with 3. -/
def HTTPS_PUT_METHOD : Nat := 3

/-- Modelled from the spec: the selector constant `HTTPS_GET_METHOD_AFTER_PUT` of the
absent `secure_http_client.h`; the operator selects the GET after PUT with 4. -/
def HTTPS_GET_METHOD_AFTER_PUT : Nat := 4

/-! ## State, world and trace -/

/-- The file-scope variables of `secure_http_client.c` that the application logic uses. -/
structure Globals where
  get_after_put_flag : Bool
  http_client_method : cy_http_client_method_t
  security_config : cy_awsport_ssl_credentials_t
  server_info : cy_awsport_server_info_t
  http_response : cy_http_client_response_t
  ip_addr : cy_wcm_ip_address_t
  https_client : cy_http_client_t
  deriving DecidableEq, Repr

/-- An argument of a console output call. -/
inductive PrintArg where
  | num (n : Int)
  | str (s : String)
  | method (m : cy_http_client_method_t)
  deriving DecidableEq, Repr

/-- The calls that leave the C file.  `APP_INFO`, `ERR_INFO` and `TEST_INFO` are the
logging macros of the absent `secure_http_client.h`; each use is recorded as one call.
Peripheral calls whose result the code does not consult are recorded by name. -/
inductive Call where
  | printf (fmt : String) (args : List PrintArg)
  | APP_INFO (fmt : String) (args : List PrintArg)
  | ERR_INFO (fmt : String) (args : List PrintArg)
  | TEST_INFO (fmt : String) (args : List PrintArg)
  | scanf (fmt : String)
  | hal (name : String)
  | handle_app_error
  | cy_wcm_init
  | cy_wcm_connect_ap (ssid : String)
  | cy_http_client_init
  | cy_http_client_create (security : cy_awsport_ssl_credentials_t)
      (server : cy_awsport_server_info_t)
  | cy_http_client_connect (handle : cy_http_client_t) (send_timeout_ms : Nat)
      (receive_timeout_ms : Nat)
  | cy_http_client_write_header (handle : cy_http_client_t)
      (request : cy_http_client_request_header_t) (header : cy_http_client_header_t)
      (num_header : Nat)
  | cy_http_client_send (handle : cy_http_client_t)
      (request : cy_http_client_request_header_t) (payload : String) (payload_len : Nat)
  deriving DecidableEq, Repr

/-- One trace entry: a call and the file-scope variables at the time of the call. -/
structure Obs where
  call : Call
  vars : Globals
  deriving DecidableEq, Repr

/-- What the libraries answer.  Calls made repeatedly are answered by call number. -/
structure World where
  sdio_interrupt_init_status : cy_en_sysint_status_t
  mtb_hal_sdio_setup : cy_rslt_t
  host_wake_interrupt_init_status : cy_en_sysint_status_t
  cy_wcm_init : cy_rslt_t
  /-- Result of the join, and the address written through the out-parameter, if any. -/
  cy_wcm_connect_ap : Nat → cy_rslt_t × Option cy_wcm_ip_address_t
  cy_http_client_init : cy_rslt_t
  /-- Result of the creation, and the handle written through the out-parameter, if any. -/
  cy_http_client_create : cy_rslt_t × Option cy_http_client_t
  cy_http_client_connect : cy_rslt_t
  /-- Result of the header serialisation and the header length it leaves in the request. -/
  cy_http_client_write_header : Nat → cy_rslt_t × Nat
  /-- Result of the send and the response structure it fills in. -/
  cy_http_client_send : Nat → cy_rslt_t × cy_http_client_response_t
  /-- Return value of the console read, and the byte the selector variable holds after it. -/
  scanf : Nat → Int × Nat

/-- Program state: the file-scope variables, the number of calls made so far to each
scripted library function, and the trace. -/
structure State where
  vars : Globals
  connect_ap_calls : Nat
  write_header_calls : Nat
  send_calls : Nat
  scanf_calls : Nat
  trace : List Obs
  deriving DecidableEq, Repr

/-- How a call of a function that may stop the program ends. -/
inductive Outcome (α : Type) where
  | returned (a : α) (s : State)
  | halted (s : State)
  | diverged
  deriving DecidableEq, Repr

/-- Append a call to the trace. -/
def emit (c : Call) (s : State) : State :=
  { s with trace := s.trace ++ [{ call := c, vars := s.vars }] }

/-- Static initialisation of the file-scope variables: `get_after_put_flag` is
initialised to `false`, the others are zero. -/
def Globals.init : Globals :=
  { get_after_put_flag := false
    http_client_method := CY_HTTP_CLIENT_METHOD_GET
    security_config := ⟨"", 0, "", 0, "", 0⟩
    server_info := ⟨"", 0⟩
    http_response := ⟨0, 0, "", 0, 0, "", 0, 0⟩
    ip_addr := ⟨0, 0⟩
    https_client := 0 }

/-- State at program start. -/
def State.init : State :=
  { vars := Globals.init
    connect_ap_calls := 0
    write_header_calls := 0
    send_calls := 0
    scanf_calls := 0
    trace := [] }

/-! ## The functions of `secure_http_client.c` -/

/-- Modelled from the spec: `handle_app_error` of the absent `retarget_io_init.h`; a
bootstrap failure is fatal and halts the process. -/
def handle_app_error {α : Type} (s : State) : Outcome α :=
  Outcome.halted (emit Call.handle_app_error s)

/-- SDIO bring-up; stops the program when an interrupt or the SDIO setup fails. -/
def app_sdio_init (w : World) (s : State) : Outcome Unit :=
  let interrupt_init_status := w.sdio_interrupt_init_status
  let s := emit (Call.hal "Cy_SysInt_Init") s
  if CY_SYSINT_SUCCESS ≠ interrupt_init_status then handle_app_error s else
  let s := emit (Call.hal "NVIC_EnableIRQ") s
  let result := w.mtb_hal_sdio_setup
  let s := emit (Call.hal "mtb_hal_sdio_setup") s
  if CY_RSLT_SUCCESS ≠ result then handle_app_error s else
  let s := emit (Call.hal "Cy_SD_Host_Enable") s
  let s := emit (Call.hal "Cy_SD_Host_Init") s
  let s := emit (Call.hal "Cy_SD_Host_SetHostBusWidth") s
  let s := emit (Call.hal "mtb_hal_sdio_configure") s
  let s := emit (Call.hal "mtb_hal_gpio_setup") s
  let s := emit (Call.hal "mtb_hal_gpio_setup") s
  let interrupt_init_status_host_wake := w.host_wake_interrupt_init_status
  let s := emit (Call.hal "Cy_SysInt_Init") s
  if CY_SYSINT_SUCCESS ≠ interrupt_init_status_host_wake then handle_app_error s else
  let s := emit (Call.hal "NVIC_EnableIRQ") s
  Outcome.returned () s

/-- One call of `cy_wcm_connect_ap(&connect_param, &ip_addr)`. -/
def call_connect_ap (cfg : Config) (w : World) (s : State) : cy_rslt_t × State :=
  let answer := w.cy_wcm_connect_ap s.connect_ap_calls
  let s := emit (Call.cy_wcm_connect_ap cfg.WIFI_SSID) s
  let s := { s with connect_ap_calls := s.connect_ap_calls + 1 }
  let s := match answer.2 with
    | some a => { s with vars := { s.vars with ip_addr := a } }
    | none => s
  (answer.1, s)

/-- The retry loop of `wifi_connect`: `for (retry_count = 0; retry_count <
MAX_WIFI_RETRY_COUNT; retry_count++)`, entered with the current `retry_count` and
`result`.  `none` when the fuel does not suffice. -/
def wifi_connect_loop (cfg : Config) (w : World) :
    Nat → Nat → cy_rslt_t → State → Option (cy_rslt_t × State)
  | 0, _, _, _ => none
  | fuel + 1, retry_count, result, s =>
    if retry_count < cfg.MAX_WIFI_RETRY_COUNT then
      let (result, s) := call_connect_ap cfg w s
      if CY_RSLT_SUCCESS = result then
        let s := emit (Call.APP_INFO "Successfully joined Wi-Fi network %s\n"
          [PrintArg.str cfg.WIFI_SSID]) s
        let s :=
          if CY_WCM_IP_VER_V4 = s.vars.ip_addr.version then
            emit (Call.APP_INFO "Assigned IP address: %s\n" [PrintArg.num s.vars.ip_addr.ip]) s
          else if CY_WCM_IP_VER_V6 = s.vars.ip_addr.version then
            emit (Call.APP_INFO "Assigned IP address: %s\n" [PrintArg.num s.vars.ip_addr.ip]) s
          else s
        some (result, s)
      else
        let s := emit (Call.ERR_INFO "Failed to join Wi-Fi network. Retrying...\n" []) s
        wifi_connect_loop cfg w fuel ((retry_count + 1) % 2 ^ 32) result s
    else some (result, s)

/-- Join the access point, with at most `MAX_WIFI_RETRY_COUNT` attempts.  The fuel
`MAX_WIFI_RETRY_COUNT + 1` suffices for every limit that fits the 32-bit counter.  The
registration of the deep-sleep callback, compiled in only for one power mode, is left
out: it returns nothing the function uses. -/
def wifi_connect (cfg : Config) (w : World) (s : State) : Outcome cy_rslt_t :=
  match app_sdio_init w s with
  | Outcome.halted s => Outcome.halted s
  | Outcome.diverged => Outcome.diverged
  | Outcome.returned () s =>
    let result := w.cy_wcm_init
    let s := emit Call.cy_wcm_init s
    if CY_RSLT_SUCCESS = result then
      let s := emit (Call.APP_INFO "Wi-Fi initialization is successful\n" []) s
      let s := emit (Call.APP_INFO "Join to AP: %s\n" [PrintArg.str cfg.WIFI_SSID]) s
      match wifi_connect_loop cfg w (cfg.MAX_WIFI_RETRY_COUNT + 1) INITIAL_VALUE result s with
      | some (result, s) => Outcome.returned result s
      | none => Outcome.diverged
    else
      let s := emit (Call.printf "Wi-Fi Connection Manager initialization failed!\n" []) s
      handle_app_error s

/-- Build one request, serialise its headers and send it. -/
def send_http_request (cfg : Config) (w : World) (handle : cy_http_client_t)
    (method : cy_http_client_method_t) (pPath : String) (s : State) : cy_rslt_t × State :=
  let request : cy_http_client_request_header_t :=
    { buffer := Buffer.http_get_buffer
      buffer_len := cfg.HTTP_GET_BUFFER_LENGTH
      headers_len := cfg.HTTP_REQUEST_HEADER_LEN
      method := method
      range_end := cfg.HTTP_REQUEST_RANGE_END
      range_start := cfg.HTTP_REQUEST_RANGE_START
      resource_path := pPath }
  let header : cy_http_client_header_t :=
    { field := "Content-Type"
      field_len := sizeof "Content-Type" - LAST_INDEX
      value := "application/x-www-form-urlencoded"
      value_len := sizeof "application/x-www-form-urlencoded" - LAST_INDEX }
  let written := w.cy_http_client_write_header s.write_header_calls
  let s := emit (Call.cy_http_client_write_header handle request header cfg.NUM_HTTP_HEADERS) s
  let s := { s with write_header_calls := s.write_header_calls + 1 }
  let http_status := written.1
  let request := { request with headers_len := written.2 }
  if CY_RSLT_SUCCESS ≠ http_status then
    (http_status, emit (Call.printf "\nWrite Header ----------- Fail \n" []) s)
  else
    let s := emit (Call.printf "\n Sending Request Headers:\n%.*s\n"
      [PrintArg.num request.headers_len]) s
    let sent := w.cy_http_client_send s.send_calls
    let s := emit (Call.cy_http_client_send handle request cfg.REQUEST_BODY
      cfg.REQUEST_BODY_LENGTH) s
    let s := { s with send_calls := s.send_calls + 1 }
    let http_status := sent.1
    let response := sent.2
    if CY_RSLT_SUCCESS ≠ http_status then
      (http_status, emit (Call.printf "\nFailed to send HTTP method=%d\n Error=%ld\r\n"
        [PrintArg.method request.method, PrintArg.num http_status]) s)
    else
      let s :=
        if CY_HTTP_CLIENT_METHOD_HEAD ≠ method then
          emit (Call.TEST_INFO ("Received HTTP response from %.*s%.*s...\n" ++
            "Response Headers:\n %.*s\n" ++ "Response Status :\n %u \n" ++
            "Response Body   :\n %.*s\n")
            [PrintArg.str cfg.HTTPS_SERVER_HOST, PrintArg.str request.resource_path,
             PrintArg.num response.headers_len, PrintArg.str response.header,
             PrintArg.num response.status_code,
             PrintArg.num response.body_len, PrintArg.str response.body]) s
        else s
      let s := emit (Call.printf ("\n buffer_len:[%d] headers_len:[%d] header_count:" ++
        "[%d] body_len:[%d] content_len:[%d]\n")
        [PrintArg.num response.buffer_len, PrintArg.num response.headers_len,
         PrintArg.num response.header_count, PrintArg.num response.body_len,
         PrintArg.num response.content_len]) s
      (http_status, s)

/-- Set the credentials and the server, and create the HTTP client instance. -/
def configure_https_client (cfg : Config) (w : World) (s : State) : cy_rslt_t × State :=
  let s := { s with vars := { s.vars with
    security_config :=
      { client_cert := cfg.keyCLIENT_CERTIFICATE_PEM
        client_cert_size := sizeof cfg.keyCLIENT_CERTIFICATE_PEM
        private_key := cfg.keyCLIENT_PRIVATE_KEY_PEM
        private_key_size := sizeof cfg.keyCLIENT_PRIVATE_KEY_PEM
        root_ca := cfg.keySERVER_ROOTCA_PEM
        root_ca_size := sizeof cfg.keySERVER_ROOTCA_PEM }
    server_info := { host_name := cfg.HTTPS_SERVER_HOST, port := cfg.HTTPS_PORT } } }
  let result := w.cy_http_client_init
  let s := emit Call.cy_http_client_init s
  let s :=
    if CY_RSLT_SUCCESS ≠ result then
      emit (Call.ERR_INFO "Failed to initialize http client.\n" []) s
    else s
  let created := w.cy_http_client_create
  let s := emit (Call.cy_http_client_create s.vars.security_config s.vars.server_info) s
  let s := match created.2 with
    | some h => { s with vars := { s.vars with https_client := h } }
    | none => s
  let result := created.1
  let s :=
    if CY_RSLT_SUCCESS ≠ result then
      emit (Call.ERR_INFO "Failed to create http client.\n" []) s
    else s
  (result, s)

/-- Format of the line that reports the status code to the operator. -/
def STATUS_CODE_FORMAT : String := "\r\n The http status code is :: %d\r\n"

/-- Send the stored method to the path the flag selects and report the outcome. -/
def http_request (cfg : Config) (w : World) (s : State) : State :=
  let (result, s) :=
    if s.vars.get_after_put_flag then
      let s := { s with vars := { s.vars with get_after_put_flag := false } }
      send_http_request cfg w s.vars.https_client s.vars.http_client_method
        cfg.HTTP_GET_PATH_AFTER_PUT s
    else
      send_http_request cfg w s.vars.https_client s.vars.http_client_method cfg.HTTP_PATH s
  if CY_RSLT_SUCCESS ≠ result then
    emit (Call.ERR_INFO "Failed to send the http request.\n" []) s
  else
    let s := emit (Call.printf "\r\n Successfully sent GET request to http server\r\n" []) s
    emit (Call.printf STATUS_CODE_FORMAT [PrintArg.num s.vars.http_response.status_code]) s

/-- The value an `int` has after conversion to `uint8_t`. -/
def to_uint8 (i : Int) : Nat := (i % 256).toNat

/-- The byte the selector variable `uart_read_value` holds after the next console read. -/
def next_selector (w : World) (s : State) : Nat := (w.scanf s.scanf_calls).2 % 256

/-- The value of `uart_result` after the next console read. -/
def next_uart_result (w : World) (s : State) : Nat := to_uint8 (w.scanf s.scanf_calls).1

/-- One iteration of the command loop: show the menu, read a selector, dispatch. -/
def fetch_https_client_method (cfg : Config) (w : World) (s : State) : State :=
  let line := "\n" ++ String.mk (List.replicate 63 '=') ++ "\n"
  let s := emit (Call.printf line []) s
  let s := emit (Call.printf cfg.MENU_HTTPS_METHOD []) s
  let s := emit (Call.printf line []) s
  let uart_result := next_uart_result w s
  let uart_read_value := next_selector w s
  let s := emit (Call.scanf "%hhu") s
  let s := { s with scanf_calls := s.scanf_calls + 1 }
  let s :=
    if UART_RESULT_SUCCESS ≠ uart_result then
      emit (Call.printf "Failed to read input value" []) s
    else s
  if uart_read_value = HTTPS_GET_METHOD then
    let s := emit (Call.printf "\n HTTP GET Request..\n" []) s
    let s := { s with vars := { s.vars with http_client_method := CY_HTTP_CLIENT_METHOD_GET } }
    http_request cfg w s
  else if uart_read_value = HTTPS_POST_METHOD then
    let s := emit (Call.printf "\n HTTP POST Request..\n" []) s
    let s := { s with vars := { s.vars with http_client_method := CY_HTTP_CLIENT_METHOD_POST } }
    http_request cfg w s
  else if uart_read_value = HTTPS_PUT_METHOD then
    let s := emit (Call.printf "\n HTTP PUT Request..\n" []) s
    let s := { s with vars := { s.vars with http_client_method := CY_HTTP_CLIENT_METHOD_PUT } }
    http_request cfg w s
  else if uart_read_value = HTTPS_GET_METHOD_AFTER_PUT then
    let s := emit (Call.printf "\n HTTP GET FOR PUT Request..\n" []) s
    let s := { s with vars := { s.vars with
      http_client_method := CY_HTTP_CLIENT_METHOD_GET, get_after_put_flag := true } }
    http_request cfg w s
  else
    let s := emit (Call.printf "\x1b[2J\x1b[;H" []) s
    emit (Call.printf "\r\nPlease select from the given valid options\r\n" []) s

/-! ## Reading the trace -/

/-- Whether a call is a join attempt. -/
def Call.is_join : Call → Bool
  | Call.cy_wcm_connect_ap _ => true
  | _ => false

/-- Number of join attempts in a trace. -/
def join_attempts (t : List Obs) : Nat := t.countP (fun o => o.call.is_join)

/-- Whether a call goes to the transport: header serialisation or send. -/
def Call.is_transport : Call → Bool
  | Call.cy_http_client_write_header _ _ _ _ => true
  | Call.cy_http_client_send _ _ _ _ => true
  | _ => false

/-- The transport calls of a trace, in order. -/
def transport_calls (t : List Obs) : List Call :=
  (t.filter (fun o => o.call.is_transport)).map (fun o => o.call)

/-- Whether a call is a transport send. -/
def Call.is_send : Call → Bool
  | Call.cy_http_client_send _ _ _ _ => true
  | _ => false

/-- Number of transport sends in a trace. -/
def sends (t : List Obs) : Nat := t.countP (fun o => o.call.is_send)

/-- Whether a call is a header serialisation. -/
def Call.is_write_header : Call → Bool
  | Call.cy_http_client_write_header _ _ _ _ => true
  | _ => false

/-- Number of header serialisations in a trace. -/
def write_headers (t : List Obs) : Nat := t.countP (fun o => o.call.is_write_header)

/-- A request handed to the dispatcher: method and path as the transport first sees
them, and the value of the flag at that moment. -/
structure Dispatch where
  method : cy_http_client_method_t
  path : String
  flag : Bool
  deriving DecidableEq, Repr

/-- The dispatch a trace entry stands for: each call of `send_http_request` starts
with exactly one header serialisation. -/
def Obs.dispatch (o : Obs) : Option Dispatch :=
  match o.call with
  | Call.cy_http_client_write_header _ request _ _ =>
    some { method := request.method, path := request.resource_path,
           flag := o.vars.get_after_put_flag }
  | _ => none

/-- The requests dispatched in a trace, in order. -/
def dispatched (t : List Obs) : List Dispatch := t.filterMap Obs.dispatch

/-- The requests dispatched in a trace, in order: method and path of each. -/
def requests (t : List Obs) : List (cy_http_client_method_t × String) :=
  (dispatched t).map (fun d => (d.method, d.path))

/-- The request a trace entry sends, if the entry is a transport send. -/
def Obs.sent (o : Obs) : Option (cy_http_client_method_t × String) :=
  match o.call with
  | Call.cy_http_client_send _ request _ _ => some (request.method, request.resource_path)
  | _ => none

/-- The requests sent over the transport in a trace, in order: method and path of each. -/
def sent_requests (t : List Obs) : List (cy_http_client_method_t × String) :=
  t.filterMap Obs.sent

/-- The status code a trace entry reports to the operator, if it is such a report. -/
def Obs.reported_status (o : Obs) : Option Int :=
  match o.call with
  | Call.printf fmt [PrintArg.num n] => if fmt = STATUS_CODE_FORMAT then some n else none
  | _ => none

/-- The status codes reported to the operator in a trace, in order. -/
def reported_status_codes (t : List Obs) : List Int := t.filterMap Obs.reported_status

/-! ## Sample configuration and worlds -/

/-- A configuration with the given retry limit. -/
def sample_config (max_retries : Nat) : Config :=
  { MAX_WIFI_RETRY_COUNT := max_retries
    WIFI_SSID := "MY_WIFI_SSID"
    HTTPS_SERVER_HOST := "mysecurehttpserver.local"
    HTTPS_PORT := 50007
    HTTP_PATH := "/"
    HTTP_GET_PATH_AFTER_PUT := "/myhellomessage"
    HTTP_GET_BUFFER_LENGTH := 2048
    HTTP_REQUEST_HEADER_LEN := 0
    HTTP_REQUEST_RANGE_START := -1
    HTTP_REQUEST_RANGE_END := -1
    NUM_HTTP_HEADERS := 1
    REQUEST_BODY := "Hello, world!"
    REQUEST_BODY_LENGTH := 13
    TRANSPORT_SEND_RECV_TIMEOUT_MS := 5000
    MENU_HTTPS_METHOD := "1 GET, 2 POST, 3 PUT, 4 GET after PUT"
    keyCLIENT_CERTIFICATE_PEM := "client certificate"
    keyCLIENT_PRIVATE_KEY_PEM := "client key"
    keySERVER_ROOTCA_PEM := "root certificate" }

/-- A response with status 200 and a five-byte body. -/
def sample_response : cy_http_client_response_t :=
  { status_code := 200, buffer_len := 2048, header := "Content-Length: 5", headers_len := 17,
    header_count := 1, body := "Hello", body_len := 5, content_len := 5 }

/-- A world in which every library call succeeds; the operator enters `selector i` at
the `i`-th read and the join answers `join i` at the `i`-th attempt. -/
def sample_world (join : Nat → cy_rslt_t) (selector : Nat → Nat) : World :=
  { sdio_interrupt_init_status := CY_SYSINT_SUCCESS
    mtb_hal_sdio_setup := CY_RSLT_SUCCESS
    host_wake_interrupt_init_status := CY_SYSINT_SUCCESS
    cy_wcm_init := CY_RSLT_SUCCESS
    cy_wcm_connect_ap := fun i => (join i, some ⟨CY_WCM_IP_VER_V4, 3232235777⟩)
    cy_http_client_init := CY_RSLT_SUCCESS
    cy_http_client_create := (CY_RSLT_SUCCESS, some 1)
    cy_http_client_connect := CY_RSLT_SUCCESS
    cy_http_client_write_header := fun _ => (CY_RSLT_SUCCESS, 64)
    cy_http_client_send := fun _ => (CY_RSLT_SUCCESS, sample_response)
    scanf := fun i => (1, selector i) }

/-- A state at the start of an iteration in which the flag is set. -/
def flag_set_state : State :=
  { State.init with vars := { Globals.init with get_after_put_flag := true } }

/-! ## The task and the disconnect callback -/

/-- The disconnect callback: it prints the handle and the disconnect type. -/
def disconnect_callback_handler (handle : cy_http_client_t) (type : Nat) (_args : Nat)
    (s : State) : State :=
  emit (Call.printf ("\nApplication Disconnect callback triggered for handle = " ++
    "%p type=%d\n") [PrintArg.num handle, PrintArg.num type]) s

/-- Modelled from the spec: `PRINT_AND_ASSERT` of the absent `secure_http_client.h`; a
failure before a working transport session exists is fatal: on a result other than
success the message is logged and the program stops. -/
def PRINT_AND_ASSERT (result : cy_rslt_t) (msg : String) (s : State) : Outcome Unit :=
  if CY_RSLT_SUCCESS ≠ result then Outcome.halted (emit (Call.ERR_INFO msg []) s)
  else Outcome.returned () s

/-- The first `iterations` rounds of `while(true) fetch_https_client_method();`. -/
def command_loop (cfg : Config) (w : World) : Nat → State → State
  | 0, s => s
  | iterations + 1, s => command_loop cfg w iterations (fetch_https_client_method cfg w s)

/-- How a run of the task looks after a number of rounds of its command loop: it has
returned, it was stopped, it is in the loop (the state is the one at the top of the
loop, before the next round), or the join loop never ended. -/
inductive TaskOutcome where
  | returned (s : State)
  | halted (s : State)
  | looping (s : State)
  | diverged
  deriving DecidableEq, Repr

/-- The task: join the network, configure the client, connect, then serve the operator
for ever.  `iterations` is the number of rounds of the command loop that are run. -/
def https_client_task (cfg : Config) (w : World) (iterations : Nat) (s : State) :
    TaskOutcome :=
  match wifi_connect cfg w s with
  | Outcome.halted s => TaskOutcome.halted s
  | Outcome.diverged => TaskOutcome.diverged
  | Outcome.returned result s =>
    match PRINT_AND_ASSERT result "Wi-Fi connection failed.\n" s with
    | Outcome.halted s => TaskOutcome.halted s
    | Outcome.diverged => TaskOutcome.diverged
    | Outcome.returned () s =>
      let (result, s) := configure_https_client cfg w s
      match PRINT_AND_ASSERT result "Failed to configure the HTTPS client.\n" s with
      | Outcome.halted s => TaskOutcome.halted s
      | Outcome.diverged => TaskOutcome.diverged
      | Outcome.returned () s =>
        let result := w.cy_http_client_connect
        let s := emit (Call.cy_http_client_connect s.vars.https_client
          cfg.TRANSPORT_SEND_RECV_TIMEOUT_MS cfg.TRANSPORT_SEND_RECV_TIMEOUT_MS) s
        if CY_RSLT_SUCCESS ≠ result then
          TaskOutcome.returned
            (emit (Call.ERR_INFO "Failed to connect to the http server.\n" []) s)
        else
          let s := emit (Call.printf "Successfully connected to http server\r\n" []) s
          TaskOutcome.looping (command_loop cfg w iterations s)

/-! ## Reading the trace: milestones -/

/-- The library calls that mark the stages of the task. -/
inductive Milestone where
  | cy_wcm_init
  | cy_http_client_init
  | cy_http_client_create
  | cy_http_client_connect
  | scanf
  deriving DecidableEq, Repr

/-- The milestone a trace entry stands for, if any. -/
def Obs.milestone (o : Obs) : Option Milestone :=
  match o.call with
  | Call.cy_wcm_init => some Milestone.cy_wcm_init
  | Call.cy_http_client_init => some Milestone.cy_http_client_init
  | Call.cy_http_client_create _ _ => some Milestone.cy_http_client_create
  | Call.cy_http_client_connect _ _ _ => some Milestone.cy_http_client_connect
  | Call.scanf _ => some Milestone.scanf
  | _ => none

/-- The milestones of a trace, in order. -/
def milestones (t : List Obs) : List Milestone := t.filterMap Obs.milestone

/-- Whether a call is `handle_app_error`. -/
def Call.is_app_error : Call → Bool
  | Call.handle_app_error => true
  | _ => false

/-- Number of calls of `handle_app_error` in a trace. -/
def app_errors (t : List Obs) : Nat := t.countP (fun o => o.call.is_app_error)

/-- The transport calls one `send_http_request` makes for a method and a path, given
what the header serialisation answers: the serialisation of the one `Content-Type`
header, and, when it succeeded, the send of the fixed body. -/
def request_calls (cfg : Config) (written : cy_rslt_t × Nat) (handle : cy_http_client_t)
    (method : cy_http_client_method_t) (path : String) : List Call :=
  Call.cy_http_client_write_header handle
      { buffer := Buffer.http_get_buffer
        buffer_len := cfg.HTTP_GET_BUFFER_LENGTH
        headers_len := cfg.HTTP_REQUEST_HEADER_LEN
        method := method
        range_end := cfg.HTTP_REQUEST_RANGE_END
        range_start := cfg.HTTP_REQUEST_RANGE_START
        resource_path := path }
      { field := "Content-Type", field_len := 12
        value := "application/x-www-form-urlencoded", value_len := 33 }
      cfg.NUM_HTTP_HEADERS ::
    if written.1 = CY_RSLT_SUCCESS then
      [Call.cy_http_client_send handle
        { buffer := Buffer.http_get_buffer
          buffer_len := cfg.HTTP_GET_BUFFER_LENGTH
          headers_len := written.2
          method := method
          range_end := cfg.HTTP_REQUEST_RANGE_END
          range_start := cfg.HTTP_REQUEST_RANGE_START
          resource_path := path }
        cfg.REQUEST_BODY cfg.REQUEST_BODY_LENGTH]
    else []

/-- The transport calls one round of the command loop makes for a selector, given the
file-scope variables at its start and what the header serialisation answers. -/
def iteration_calls (cfg : Config) (selector : Nat) (written : cy_rslt_t × Nat)
    (vars : Globals) : List Call :=
  if selector = 1 then
    request_calls cfg written vars.https_client CY_HTTP_CLIENT_METHOD_GET
      (if vars.get_after_put_flag then cfg.HTTP_GET_PATH_AFTER_PUT else cfg.HTTP_PATH)
  else if selector = 2 then
    request_calls cfg written vars.https_client CY_HTTP_CLIENT_METHOD_POST
      (if vars.get_after_put_flag then cfg.HTTP_GET_PATH_AFTER_PUT else cfg.HTTP_PATH)
  else if selector = 3 then
    request_calls cfg written vars.https_client CY_HTTP_CLIENT_METHOD_PUT
      (if vars.get_after_put_flag then cfg.HTTP_GET_PATH_AFTER_PUT else cfg.HTTP_PATH)
  else if selector = 4 then
    request_calls cfg written vars.https_client CY_HTTP_CLIENT_METHOD_GET
      cfg.HTTP_GET_PATH_AFTER_PUT
  else []

/-- A world like the sample world in which the console read returns `read_result`. -/
def failed_read_world (read_result : Int) (selector : Nat → Nat) : World :=
  { sample_world (fun _ => 0) selector with scanf := fun i => (read_result, selector i) }

/-- Number of console reads in a trace. -/
def reads (t : List Obs) : Nat := (milestones t).count Milestone.scanf

/-- Number of calls of `cy_http_client_connect` in a trace. -/
def connect_calls (t : List Obs) : Nat := (milestones t).count Milestone.cy_http_client_connect

/-! ## Basic facts about the trace -/

@[simp] theorem emit_vars (c : Call) (s : State) : (emit c s).vars = s.vars := rfl

@[simp] theorem emit_connect_ap_calls (c : Call) (s : State) :
    (emit c s).connect_ap_calls = s.connect_ap_calls := rfl

@[simp] theorem emit_write_header_calls (c : Call) (s : State) :
    (emit c s).write_header_calls = s.write_header_calls := rfl

@[simp] theorem emit_send_calls (c : Call) (s : State) :
    (emit c s).send_calls = s.send_calls := rfl

@[simp] theorem emit_scanf_calls (c : Call) (s : State) :
    (emit c s).scanf_calls = s.scanf_calls := rfl

@[simp] theorem emit_trace (c : Call) (s : State) :
    (emit c s).trace = s.trace ++ [{ call := c, vars := s.vars }] := rfl

@[simp] theorem next_selector_emit (w : World) (c : Call) (s : State) :
    next_selector w (emit c s) = next_selector w s := rfl

@[simp] theorem next_uart_result_emit (w : World) (c : Call) (s : State) :
    next_uart_result w (emit c s) = next_uart_result w s := rfl

theorem join_attempts_append (t u : List Obs) :
    join_attempts (t ++ u) = join_attempts t + join_attempts u := by
  simp [join_attempts]

theorem join_attempts_emit (c : Call) (s : State) :
    join_attempts (emit c s).trace = join_attempts s.trace + (if c.is_join then 1 else 0) := by
  cases h : c.is_join <;> simp [join_attempts, h]

theorem dispatched_emit (c : Call) (s : State) :
    dispatched (emit c s).trace =
      dispatched s.trace ++ (Obs.dispatch { call := c, vars := s.vars }).toList := by
  cases h : Obs.dispatch { call := c, vars := s.vars } <;> simp [dispatched, h]

theorem reported_emit (c : Call) (s : State) :
    reported_status_codes (emit c s).trace =
      reported_status_codes s.trace ++
        (Obs.reported_status { call := c, vars := s.vars }).toList := by
  cases h : Obs.reported_status { call := c, vars := s.vars } <;>
    simp [reported_status_codes, h]

theorem sent_emit (c : Call) (s : State) :
    sent_requests (emit c s).trace =
      sent_requests s.trace ++ (Obs.sent { call := c, vars := s.vars }).toList := by
  cases h : Obs.sent { call := c, vars := s.vars } <;> simp [sent_requests, h]

theorem transport_calls_emit (c : Call) (s : State) :
    transport_calls (emit c s).trace =
      transport_calls s.trace ++ (if c.is_transport then [c] else []) := by
  cases h : c.is_transport <;> simp [transport_calls, h]

/-! ## The join loop -/

theorem call_connect_ap_result (cfg : Config) (w : World) (s : State) :
    (call_connect_ap cfg w s).1 = (w.cy_wcm_connect_ap s.connect_ap_calls).1 := rfl

theorem call_connect_ap_calls (cfg : Config) (w : World) (s : State) :
    (call_connect_ap cfg w s).2.connect_ap_calls = s.connect_ap_calls + 1 := by
  rcases h : (w.cy_wcm_connect_ap s.connect_ap_calls).2 with _ | a <;>
    simp [call_connect_ap, h]

theorem call_connect_ap_joins (cfg : Config) (w : World) (s : State) :
    join_attempts (call_connect_ap cfg w s).2.trace = join_attempts s.trace + 1 := by
  rcases h : (w.cy_wcm_connect_ap s.connect_ap_calls).2 with _ | a <;>
    simp [call_connect_ap, h, join_attempts, Call.is_join]

/-- SDIO bring-up that succeeds returns, makes no join attempt and leaves the
file-scope variables and the call counters as they were. -/
theorem app_sdio_init_ok (w : World) (s : State)
    (h1 : w.sdio_interrupt_init_status = CY_SYSINT_SUCCESS)
    (h2 : w.mtb_hal_sdio_setup = CY_RSLT_SUCCESS)
    (h3 : w.host_wake_interrupt_init_status = CY_SYSINT_SUCCESS) :
    ∃ s1, app_sdio_init w s = Outcome.returned () s1 ∧ s1.vars = s.vars ∧
      s1.connect_ap_calls = s.connect_ap_calls ∧
      join_attempts s1.trace = join_attempts s.trace := by
  simp [app_sdio_init, h1, h2, h3, join_attempts, Call.is_join]

/-- The join loop when the next attempts all fail: it runs until the retry count
reaches the limit, one attempt per iteration, and ends with a failure code. -/
theorem wifi_connect_loop_all_fail (cfg : Config) (w : World)
    (hN : cfg.MAX_WIFI_RETRY_COUNT < 2 ^ 32) :
    ∀ (n fuel retry_count : Nat) (result : cy_rslt_t) (s : State),
      retry_count + n = cfg.MAX_WIFI_RETRY_COUNT → n < fuel →
      (∀ i, i < n → (w.cy_wcm_connect_ap (s.connect_ap_calls + i)).1 ≠ CY_RSLT_SUCCESS) →
      (n = 0 → result ≠ CY_RSLT_SUCCESS) →
      ∃ r s1, wifi_connect_loop cfg w fuel retry_count result s = some (r, s1) ∧
        r ≠ CY_RSLT_SUCCESS ∧ join_attempts s1.trace = join_attempts s.trace + n := by
  intro n
  induction n with
  | zero =>
    intro fuel retry_count result s hrc hfuel _ hres
    obtain ⟨f, rfl⟩ : ∃ f, fuel = f + 1 := ⟨fuel - 1, by omega⟩
    refine ⟨result, s, ?_, hres rfl, by simp⟩
    have : ¬ retry_count < cfg.MAX_WIFI_RETRY_COUNT := by omega
    simp [wifi_connect_loop, this]
  | succ n ih =>
    intro fuel retry_count result s hrc hfuel hfail _
    obtain ⟨f, rfl⟩ : ∃ f, fuel = f + 1 := ⟨fuel - 1, by omega⟩
    have hlt : retry_count < cfg.MAX_WIFI_RETRY_COUNT := by omega
    have hwrap : (retry_count + 1) % 2 ^ 32 = retry_count + 1 := by
      apply Nat.mod_eq_of_lt; omega
    have hr : (call_connect_ap cfg w s).1 ≠ CY_RSLT_SUCCESS := by
      rw [call_connect_ap_result]; simpa using hfail 0 (by omega)
    have hr2 : ¬ CY_RSLT_SUCCESS = (call_connect_ap cfg w s).1 := fun h => hr h.symm
    obtain ⟨r, s1, hrun, hne, hcount⟩ := ih f (retry_count + 1) (call_connect_ap cfg w s).1
      (emit (Call.ERR_INFO "Failed to join Wi-Fi network. Retrying...\n" [])
        (call_connect_ap cfg w s).2)
      (by omega) (by omega)
      (by
        intro i hi
        have := hfail (i + 1) (by omega)
        simpa [call_connect_ap_calls, Nat.add_assoc, Nat.add_comm 1 i] using this)
      (fun _ => hr)
    refine ⟨r, s1, ?_, hne, ?_⟩
    · rw [wifi_connect_loop]
      simp only [hlt, if_true, hr2, if_false, hwrap]
      exact hrun
    · rw [hcount, join_attempts_emit, call_connect_ap_joins]
      simp [Call.is_join]
      omega

/-- The join loop when the next `j` attempts fail and the one after succeeds: it stops
at the first success, after `j + 1` attempts, and ends with the success code. -/
theorem wifi_connect_loop_success (cfg : Config) (w : World)
    (hN : cfg.MAX_WIFI_RETRY_COUNT < 2 ^ 32) :
    ∀ (j fuel retry_count : Nat) (result : cy_rslt_t) (s : State),
      retry_count + j < cfg.MAX_WIFI_RETRY_COUNT → j < fuel →
      (∀ i, i < j → (w.cy_wcm_connect_ap (s.connect_ap_calls + i)).1 ≠ CY_RSLT_SUCCESS) →
      (w.cy_wcm_connect_ap (s.connect_ap_calls + j)).1 = CY_RSLT_SUCCESS →
      ∃ s1, wifi_connect_loop cfg w fuel retry_count result s = some (CY_RSLT_SUCCESS, s1) ∧
        join_attempts s1.trace = join_attempts s.trace + (j + 1) := by
  intro j
  induction j with
  | zero =>
    intro fuel retry_count result s hrc hfuel _ hok
    obtain ⟨f, rfl⟩ : ∃ f, fuel = f + 1 := ⟨fuel - 1, by omega⟩
    have hlt : retry_count < cfg.MAX_WIFI_RETRY_COUNT := by omega
    have hr : CY_RSLT_SUCCESS = (call_connect_ap cfg w s).1 := by
      rw [call_connect_ap_result]; simpa using hok.symm
    rw [wifi_connect_loop]
    simp only [hlt, if_true]
    rw [if_pos hr]
    refine ⟨_, by rw [← hr], ?_⟩
    split_ifs <;> simp [join_attempts_emit, call_connect_ap_joins, Call.is_join, -emit_trace]
  | succ j ih =>
    intro fuel retry_count result s hrc hfuel hfail hok
    obtain ⟨f, rfl⟩ : ∃ f, fuel = f + 1 := ⟨fuel - 1, by omega⟩
    have hlt : retry_count < cfg.MAX_WIFI_RETRY_COUNT := by omega
    have hwrap : (retry_count + 1) % 2 ^ 32 = retry_count + 1 := by
      apply Nat.mod_eq_of_lt; omega
    have hr : (call_connect_ap cfg w s).1 ≠ CY_RSLT_SUCCESS := by
      rw [call_connect_ap_result]; simpa using hfail 0 (by omega)
    have hr2 : ¬ CY_RSLT_SUCCESS = (call_connect_ap cfg w s).1 := fun h => hr h.symm
    obtain ⟨s1, hrun, hcount⟩ := ih f (retry_count + 1) (call_connect_ap cfg w s).1
      (emit (Call.ERR_INFO "Failed to join Wi-Fi network. Retrying...\n" [])
        (call_connect_ap cfg w s).2)
      (by omega) (by omega)
      (by
        intro i hi
        have := hfail (i + 1) (by omega)
        simpa [call_connect_ap_calls, Nat.add_assoc, Nat.add_comm 1 i] using this)
      (by simpa [call_connect_ap_calls, Nat.add_assoc, Nat.add_comm 1 j] using hok)
    refine ⟨s1, ?_, ?_⟩
    · rw [wifi_connect_loop]
      simp only [hlt, if_true, hr2, if_false, hwrap]
      exact hrun
    · rw [hcount, join_attempts_emit, call_connect_ap_joins]
      simp [Call.is_join]
      omega

/-! ## Wi-Fi association -/

/-- Exhausted retries, for every retry limit N with 1 ≤ N (a 32-bit value): when the
SDIO bring-up and `cy_wcm_init` succeed and the N join attempts all fail,
`wifi_connect` returns, its result is not `CY_RSLT_SUCCESS`, and it has called
`cy_wcm_connect_ap` exactly N times. -/
theorem wifi_connect_retries_exhausted (cfg : Config) (w : World) (s : State)
    (hN : cfg.MAX_WIFI_RETRY_COUNT < 2 ^ 32) (hpos : 1 ≤ cfg.MAX_WIFI_RETRY_COUNT)
    (h1 : w.sdio_interrupt_init_status = CY_SYSINT_SUCCESS)
    (h2 : w.mtb_hal_sdio_setup = CY_RSLT_SUCCESS)
    (h3 : w.host_wake_interrupt_init_status = CY_SYSINT_SUCCESS)
    (hinit : w.cy_wcm_init = CY_RSLT_SUCCESS)
    (hfail : ∀ i, i < cfg.MAX_WIFI_RETRY_COUNT →
      (w.cy_wcm_connect_ap (s.connect_ap_calls + i)).1 ≠ CY_RSLT_SUCCESS) :
    ∃ r s1, wifi_connect cfg w s = Outcome.returned r s1 ∧ r ≠ CY_RSLT_SUCCESS ∧
      join_attempts s1.trace = join_attempts s.trace + cfg.MAX_WIFI_RETRY_COUNT := by
  obtain ⟨s0, hsdio, _, hcalls, hjoins⟩ := app_sdio_init_ok w s h1 h2 h3
  obtain ⟨r, s1, hrun, hne, hcount⟩ := wifi_connect_loop_all_fail cfg w hN
    cfg.MAX_WIFI_RETRY_COUNT (cfg.MAX_WIFI_RETRY_COUNT + 1) INITIAL_VALUE w.cy_wcm_init
    (emit (Call.APP_INFO "Join to AP: %s\n" [PrintArg.str cfg.WIFI_SSID])
      (emit (Call.APP_INFO "Wi-Fi initialization is successful\n" [])
        (emit Call.cy_wcm_init s0)))
    (by simp [INITIAL_VALUE]) (by omega)
    (by intro i hi; simpa [hcalls] using hfail i hi)
    (by omega)
  refine ⟨r, s1, ?_, hne, ?_⟩
  · rw [hinit] at hrun
    simp only [wifi_connect, hsdio, hinit, if_true, hrun]
  · rw [hcount]
    simp [join_attempts_emit, Call.is_join, hjoins, -emit_trace]

/-- Exhausted retries at limit 5: every join attempt answers the error code 1. -/
theorem wifi_connect_retries_exhausted_witness :
    ∃ r s1, wifi_connect (sample_config 5) (sample_world (fun _ => 1) (fun _ => 1))
        State.init = Outcome.returned r s1 ∧ r ≠ CY_RSLT_SUCCESS ∧
      join_attempts s1.trace = join_attempts State.init.trace + 5 :=
  wifi_connect_retries_exhausted (sample_config 5) (sample_world (fun _ => 1) (fun _ => 1))
    State.init (by decide) (by decide) rfl rfl rfl rfl
    (fun _ _ => by simp [sample_world, CY_RSLT_SUCCESS])

/-- C1 (code defect): at the retry limit 0, with the SDIO bring-up and `cy_wcm_init`
succeeding and every join attempt answering an error code, `wifi_connect` makes no
join attempt and returns `CY_RSLT_SUCCESS`, the result `cy_wcm_init` left behind,
although no connection was established. -/
theorem wifi_connect_limit_zero_returns_success :
    (∀ i, ((sample_world (fun _ => 1) (fun _ => 1)).cy_wcm_connect_ap i).1 ≠ CY_RSLT_SUCCESS) ∧
    ∃ s1, wifi_connect (sample_config 0) (sample_world (fun _ => 1) (fun _ => 1))
        State.init = Outcome.returned CY_RSLT_SUCCESS s1 ∧
      join_attempts s1.trace = 0 :=
  ⟨fun _ => by simp [sample_world, CY_RSLT_SUCCESS], _, rfl, by decide⟩

/-- C2: for every retry limit N (a 32-bit value) and every k with 1 ≤ k ≤ N, when the
SDIO bring-up and `cy_wcm_init` succeed, the first k-1 join attempts fail and the k-th
succeeds, `wifi_connect` returns `CY_RSLT_SUCCESS` after exactly k calls of
`cy_wcm_connect_ap`. -/
theorem wifi_connect_succeeds_on_attempt (cfg : Config) (w : World) (s : State) (k : Nat)
    (hN : cfg.MAX_WIFI_RETRY_COUNT < 2 ^ 32) (hk1 : 1 ≤ k)
    (hkN : k ≤ cfg.MAX_WIFI_RETRY_COUNT)
    (h1 : w.sdio_interrupt_init_status = CY_SYSINT_SUCCESS)
    (h2 : w.mtb_hal_sdio_setup = CY_RSLT_SUCCESS)
    (h3 : w.host_wake_interrupt_init_status = CY_SYSINT_SUCCESS)
    (hinit : w.cy_wcm_init = CY_RSLT_SUCCESS)
    (hfail : ∀ i, i + 1 < k →
      (w.cy_wcm_connect_ap (s.connect_ap_calls + i)).1 ≠ CY_RSLT_SUCCESS)
    (hok : (w.cy_wcm_connect_ap (s.connect_ap_calls + (k - 1))).1 = CY_RSLT_SUCCESS) :
    ∃ s1, wifi_connect cfg w s = Outcome.returned CY_RSLT_SUCCESS s1 ∧
      join_attempts s1.trace = join_attempts s.trace + k := by
  obtain ⟨s0, hsdio, _, hcalls, hjoins⟩ := app_sdio_init_ok w s h1 h2 h3
  obtain ⟨s1, hrun, hcount⟩ := wifi_connect_loop_success cfg w hN
    (k - 1) (cfg.MAX_WIFI_RETRY_COUNT + 1) INITIAL_VALUE w.cy_wcm_init
    (emit (Call.APP_INFO "Join to AP: %s\n" [PrintArg.str cfg.WIFI_SSID])
      (emit (Call.APP_INFO "Wi-Fi initialization is successful\n" [])
        (emit Call.cy_wcm_init s0)))
    (by simp [INITIAL_VALUE]; omega) (by omega)
    (by intro i hi; simpa [hcalls] using hfail i (by omega))
    (by simpa [hcalls] using hok)
  refine ⟨s1, ?_, ?_⟩
  · rw [hinit] at hrun
    simp only [wifi_connect, hsdio, hinit, if_true, hrun]
  · rw [hcount]
    simp [join_attempts_emit, Call.is_join, hjoins, -emit_trace]
    omega

/-- Instance of C2: limit 5, the first join attempt fails and the second succeeds. -/
theorem wifi_connect_succeeds_on_attempt_witness :
    ∃ s1, wifi_connect (sample_config 5)
        (sample_world (fun i => if i = 1 then 0 else 1) (fun _ => 1)) State.init =
        Outcome.returned CY_RSLT_SUCCESS s1 ∧
      join_attempts s1.trace = join_attempts State.init.trace + 2 :=
  wifi_connect_succeeds_on_attempt (sample_config 5)
    (sample_world (fun i => if i = 1 then 0 else 1) (fun _ => 1)) State.init 2
    (by decide) (by decide) (by decide) rfl rfl rfl rfl
    (fun i hi => by
      have hi0 : i = 0 := by omega
      subst hi0
      decide)
    (by decide)

/-! ## The request dispatcher -/

theorem send_http_request_vars (cfg : Config) (w : World) (handle : cy_http_client_t)
    (method : cy_http_client_method_t) (pPath : String) (s : State) :
    (send_http_request cfg w handle method pPath s).2.vars = s.vars := by
  unfold send_http_request
  simp only
  split_ifs <;> rfl

theorem send_http_request_scanf_calls (cfg : Config) (w : World) (handle : cy_http_client_t)
    (method : cy_http_client_method_t) (pPath : String) (s : State) :
    (send_http_request cfg w handle method pPath s).2.scanf_calls = s.scanf_calls := by
  unfold send_http_request
  simp only
  split_ifs <;> rfl

theorem send_http_request_dispatched (cfg : Config) (w : World) (handle : cy_http_client_t)
    (method : cy_http_client_method_t) (pPath : String) (s : State) :
    dispatched (send_http_request cfg w handle method pPath s).2.trace =
      dispatched s.trace ++
        [{ method := method, path := pPath, flag := s.vars.get_after_put_flag }] := by
  unfold send_http_request
  simp only
  split_ifs <;> simp [dispatched, Obs.dispatch]

theorem send_http_request_reported (cfg : Config) (w : World) (handle : cy_http_client_t)
    (method : cy_http_client_method_t) (pPath : String) (s : State) :
    reported_status_codes (send_http_request cfg w handle method pPath s).2.trace =
      reported_status_codes s.trace := by
  unfold send_http_request
  simp only
  split_ifs <;> simp [reported_status_codes, Obs.reported_status, STATUS_CODE_FORMAT]

theorem send_http_request_write_headers (cfg : Config) (w : World) (handle : cy_http_client_t)
    (method : cy_http_client_method_t) (pPath : String) (s : State) :
    write_headers (send_http_request cfg w handle method pPath s).2.trace =
      write_headers s.trace + 1 := by
  unfold send_http_request
  simp only
  split_ifs <;> simp [write_headers, Call.is_write_header]

theorem send_http_request_write_header_calls (cfg : Config) (w : World)
    (handle : cy_http_client_t) (method : cy_http_client_method_t) (pPath : String)
    (s : State) :
    (send_http_request cfg w handle method pPath s).2.write_header_calls =
      s.write_header_calls + 1 := by
  unfold send_http_request
  simp only
  split_ifs <;> rfl

/-- What one `send_http_request` sends: the request with the given method and path when
the header serialisation succeeded, nothing otherwise. -/
theorem send_http_request_sent (cfg : Config) (w : World) (handle : cy_http_client_t)
    (method : cy_http_client_method_t) (pPath : String) (s : State) :
    sent_requests (send_http_request cfg w handle method pPath s).2.trace =
      sent_requests s.trace ++
        if (w.cy_http_client_write_header s.write_header_calls).1 = CY_RSLT_SUCCESS then
          [(method, pPath)]
        else [] := by
  unfold send_http_request
  simp only
  split_ifs <;> simp_all [sent_requests, Obs.sent]

/-- C8: for every handle, method and path, if `cy_http_client_write_header` fails,
`send_http_request` returns that failure and does not call `cy_http_client_send`; if it
succeeds, `send_http_request` calls `cy_http_client_send` exactly once and returns
exactly its result; the header serialisation is called exactly once either way, so the
result is success if and only if both calls succeeded. -/
theorem send_http_request_result (cfg : Config) (w : World) (handle : cy_http_client_t)
    (method : cy_http_client_method_t) (pPath : String) (s : State) :
    ((w.cy_http_client_write_header s.write_header_calls).1 ≠ CY_RSLT_SUCCESS →
      (send_http_request cfg w handle method pPath s).1 =
          (w.cy_http_client_write_header s.write_header_calls).1 ∧
        sends (send_http_request cfg w handle method pPath s).2.trace = sends s.trace) ∧
    ((w.cy_http_client_write_header s.write_header_calls).1 = CY_RSLT_SUCCESS →
      (send_http_request cfg w handle method pPath s).1 =
          (w.cy_http_client_send s.send_calls).1 ∧
        sends (send_http_request cfg w handle method pPath s).2.trace = sends s.trace + 1) ∧
    write_headers (send_http_request cfg w handle method pPath s).2.trace =
      write_headers s.trace + 1 ∧
    ((send_http_request cfg w handle method pPath s).1 = CY_RSLT_SUCCESS ↔
      (w.cy_http_client_write_header s.write_header_calls).1 = CY_RSLT_SUCCESS ∧
        (w.cy_http_client_send s.send_calls).1 = CY_RSLT_SUCCESS) := by
  have hfail : (w.cy_http_client_write_header s.write_header_calls).1 ≠ CY_RSLT_SUCCESS →
      (send_http_request cfg w handle method pPath s).1 =
          (w.cy_http_client_write_header s.write_header_calls).1 ∧
        sends (send_http_request cfg w handle method pPath s).2.trace = sends s.trace := by
    intro h
    have h2 : ¬ CY_RSLT_SUCCESS = (w.cy_http_client_write_header s.write_header_calls).1 :=
      fun e => h e.symm
    simp [send_http_request, h2, sends, Call.is_send]
  have hok : (w.cy_http_client_write_header s.write_header_calls).1 = CY_RSLT_SUCCESS →
      (send_http_request cfg w handle method pPath s).1 =
          (w.cy_http_client_send s.send_calls).1 ∧
        sends (send_http_request cfg w handle method pPath s).2.trace = sends s.trace + 1 := by
    intro h
    unfold send_http_request
    simp only [h, ne_eq, not_true_eq_false, if_false]
    split_ifs <;> simp [sends, Call.is_send]
  refine ⟨hfail, hok, send_http_request_write_headers cfg w handle method pPath s, ?_⟩
  by_cases hw : (w.cy_http_client_write_header s.write_header_calls).1 = CY_RSLT_SUCCESS
  · rw [(hok hw).1]
    simp [hw]
  · rw [(hfail hw).1]
    simp [hw]

/-- Instance of C8: header serialisation fails with code 7 in the first world and
succeeds in the second, where the send fails with code 9. -/
theorem send_http_request_result_witness :
    (send_http_request (sample_config 5)
        { sample_world (fun _ => 0) (fun _ => 1) with
          cy_http_client_write_header := fun _ => (7, 0) }
        1 CY_HTTP_CLIENT_METHOD_GET "/" State.init).1 = 7 ∧
    (send_http_request (sample_config 5)
        { sample_world (fun _ => 0) (fun _ => 1) with
          cy_http_client_send := fun _ => (9, sample_response) }
        1 CY_HTTP_CLIENT_METHOD_GET "/" State.init).1 = 9 :=
  ⟨((send_http_request_result (sample_config 5)
        { sample_world (fun _ => 0) (fun _ => 1) with
          cy_http_client_write_header := fun _ => (7, 0) }
        1 CY_HTTP_CLIENT_METHOD_GET "/" State.init).1 (by decide)).1,
   ((send_http_request_result (sample_config 5)
        { sample_world (fun _ => 0) (fun _ => 1) with
          cy_http_client_send := fun _ => (9, sample_response) }
        1 CY_HTTP_CLIENT_METHOD_GET "/" State.init).2.1 (by decide)).1⟩

/-! ## One request of the command loop -/

theorem http_request_vars (cfg : Config) (w : World) (s : State) :
    (http_request cfg w s).vars = { s.vars with get_after_put_flag := false } := by
  unfold http_request
  cases hf : s.vars.get_after_put_flag <;>
    simp only [hf, if_true, if_false, Bool.false_eq_true] <;>
    split_ifs <;> simp [send_http_request_vars, ← hf]

theorem http_request_scanf_calls (cfg : Config) (w : World) (s : State) :
    (http_request cfg w s).scanf_calls = s.scanf_calls := by
  unfold http_request
  cases hf : s.vars.get_after_put_flag <;>
    simp only [hf, if_true, if_false, Bool.false_eq_true] <;>
    split_ifs <;> simp [send_http_request_scanf_calls]

theorem http_request_dispatched (cfg : Config) (w : World) (s : State) :
    dispatched (http_request cfg w s).trace =
      dispatched s.trace ++
        [{ method := s.vars.http_client_method
           path := if s.vars.get_after_put_flag then cfg.HTTP_GET_PATH_AFTER_PUT
             else cfg.HTTP_PATH
           flag := false }] := by
  unfold http_request
  cases hf : s.vars.get_after_put_flag <;>
    simp only [hf, if_true, if_false, Bool.false_eq_true] <;>
    split_ifs <;>
    simp [dispatched_emit, Obs.dispatch, send_http_request_dispatched, hf, -emit_trace]

theorem http_request_sent (cfg : Config) (w : World) (s : State) :
    sent_requests (http_request cfg w s).trace =
      sent_requests s.trace ++
        if (w.cy_http_client_write_header s.write_header_calls).1 = CY_RSLT_SUCCESS then
          [(s.vars.http_client_method,
            if s.vars.get_after_put_flag then cfg.HTTP_GET_PATH_AFTER_PUT
            else cfg.HTTP_PATH)]
        else [] := by
  unfold http_request
  cases hf : s.vars.get_after_put_flag <;>
    simp only [hf, if_true, if_false, Bool.false_eq_true] <;>
    split_ifs <;>
    simp_all [sent_emit, Obs.sent, send_http_request_sent, -emit_trace]

/-! ## One iteration of the command loop -/

theorem fetch_scanf_calls (cfg : Config) (w : World) (s : State) :
    (fetch_https_client_method cfg w s).scanf_calls = s.scanf_calls + 1 := by
  unfold fetch_https_client_method
  simp only [next_selector_emit, next_uart_result_emit]
  split_ifs <;> simp [http_request_scanf_calls]

/-- The file-scope variables after one iteration, by selector. -/
theorem fetch_vars (cfg : Config) (w : World) (s : State) :
    (fetch_https_client_method cfg w s).vars =
      if next_selector w s = 1 then
        { s.vars with http_client_method := CY_HTTP_CLIENT_METHOD_GET,
                      get_after_put_flag := false }
      else if next_selector w s = 2 then
        { s.vars with http_client_method := CY_HTTP_CLIENT_METHOD_POST,
                      get_after_put_flag := false }
      else if next_selector w s = 3 then
        { s.vars with http_client_method := CY_HTTP_CLIENT_METHOD_PUT,
                      get_after_put_flag := false }
      else if next_selector w s = 4 then
        { s.vars with http_client_method := CY_HTTP_CLIENT_METHOD_GET,
                      get_after_put_flag := false }
      else s.vars := by
  unfold fetch_https_client_method
  simp only [HTTPS_GET_METHOD, HTTPS_POST_METHOD, HTTPS_PUT_METHOD, HTTPS_GET_METHOD_AFTER_PUT,
    next_selector_emit, next_uart_result_emit]
  split_ifs <;> simp [http_request_vars]

/-- The requests dispatched in one iteration, by selector. -/
theorem fetch_dispatched (cfg : Config) (w : World) (s : State) :
    dispatched (fetch_https_client_method cfg w s).trace =
      dispatched s.trace ++
        if next_selector w s = 1 then
          [{ method := CY_HTTP_CLIENT_METHOD_GET
             path := if s.vars.get_after_put_flag then cfg.HTTP_GET_PATH_AFTER_PUT
               else cfg.HTTP_PATH
             flag := false }]
        else if next_selector w s = 2 then
          [{ method := CY_HTTP_CLIENT_METHOD_POST
             path := if s.vars.get_after_put_flag then cfg.HTTP_GET_PATH_AFTER_PUT
               else cfg.HTTP_PATH
             flag := false }]
        else if next_selector w s = 3 then
          [{ method := CY_HTTP_CLIENT_METHOD_PUT
             path := if s.vars.get_after_put_flag then cfg.HTTP_GET_PATH_AFTER_PUT
               else cfg.HTTP_PATH
             flag := false }]
        else if next_selector w s = 4 then
          [{ method := CY_HTTP_CLIENT_METHOD_GET
             path := cfg.HTTP_GET_PATH_AFTER_PUT
             flag := false }]
        else [] := by
  unfold fetch_https_client_method
  simp only [HTTPS_GET_METHOD, HTTPS_POST_METHOD, HTTPS_PUT_METHOD, HTTPS_GET_METHOD_AFTER_PUT,
    next_selector_emit, next_uart_result_emit]
  split_ifs <;>
    simp [http_request_dispatched, dispatched_emit, Obs.dispatch, -emit_trace] <;>
    simp_all

/-- The requests sent over the transport in one iteration with selector 4. -/
theorem fetch_sent_after_put (cfg : Config) (w : World) (s : State)
    (h : next_selector w s = 4) :
    sent_requests (fetch_https_client_method cfg w s).trace =
      sent_requests s.trace ++
        if (w.cy_http_client_write_header s.write_header_calls).1 = CY_RSLT_SUCCESS then
          [(CY_HTTP_CLIENT_METHOD_GET, cfg.HTTP_GET_PATH_AFTER_PUT)]
        else [] := by
  unfold fetch_https_client_method
  simp only [HTTPS_GET_METHOD, HTTPS_POST_METHOD, HTTPS_PUT_METHOD, HTTPS_GET_METHOD_AFTER_PUT,
    next_selector_emit, next_uart_result_emit, h]
  split_ifs <;>
    simp_all [http_request_sent, sent_emit, Obs.sent, -emit_trace]

/-- An iteration with a selector outside 1..4 makes no transport call. -/
theorem fetch_invalid_transport_calls (cfg : Config) (w : World) (s : State)
    (h1 : next_selector w s ≠ 1) (h2 : next_selector w s ≠ 2) (h3 : next_selector w s ≠ 3)
    (h4 : next_selector w s ≠ 4) :
    transport_calls (fetch_https_client_method cfg w s).trace = transport_calls s.trace := by
  unfold fetch_https_client_method
  simp only [HTTPS_GET_METHOD, HTTPS_POST_METHOD, HTTPS_PUT_METHOD, HTTPS_GET_METHOD_AFTER_PUT,
    next_selector_emit, next_uart_result_emit, h1, h2, h3, h4, if_false]
  split_ifs <;> simp [transport_calls_emit, Call.is_transport, -emit_trace]

theorem fetch_requests (cfg : Config) (w : World) (s : State) :
    requests (fetch_https_client_method cfg w s).trace =
      requests s.trace ++
        if next_selector w s = 1 then
          [(CY_HTTP_CLIENT_METHOD_GET,
            if s.vars.get_after_put_flag then cfg.HTTP_GET_PATH_AFTER_PUT else cfg.HTTP_PATH)]
        else if next_selector w s = 2 then
          [(CY_HTTP_CLIENT_METHOD_POST,
            if s.vars.get_after_put_flag then cfg.HTTP_GET_PATH_AFTER_PUT else cfg.HTTP_PATH)]
        else if next_selector w s = 3 then
          [(CY_HTTP_CLIENT_METHOD_PUT,
            if s.vars.get_after_put_flag then cfg.HTTP_GET_PATH_AFTER_PUT else cfg.HTTP_PATH)]
        else if next_selector w s = 4 then
          [(CY_HTTP_CLIENT_METHOD_GET, cfg.HTTP_GET_PATH_AFTER_PUT)]
        else [] := by
  simp only [requests, fetch_dispatched, List.map_append]
  split_ifs <;> rfl

/-- The flag is false after every iteration, whatever the selector, provided it was
false before; after a valid selector it is false in any case. -/
theorem fetch_flag_false (cfg : Config) (w : World) (s : State)
    (h : s.vars.get_after_put_flag = false) :
    (fetch_https_client_method cfg w s).vars.get_after_put_flag = false := by
  rw [fetch_vars]
  split_ifs <;> simp [h]

/-- C3: in an iteration that starts with the flag clear (as every iteration of the
running loop does), selector 1 dispatches a GET, 2 a POST and 3 a PUT to `HTTP_PATH`,
selector 4 dispatches a GET to `HTTP_GET_PATH_AFTER_PUT`, and in each of these cases
exactly one request is dispatched; every other selector dispatches nothing. -/
theorem selector_mapping (cfg : Config) (w : World) (s : State)
    (hflag : s.vars.get_after_put_flag = false) :
    (next_selector w s = 1 →
      requests (fetch_https_client_method cfg w s).trace =
        requests s.trace ++ [(CY_HTTP_CLIENT_METHOD_GET, cfg.HTTP_PATH)]) ∧
    (next_selector w s = 2 →
      requests (fetch_https_client_method cfg w s).trace =
        requests s.trace ++ [(CY_HTTP_CLIENT_METHOD_POST, cfg.HTTP_PATH)]) ∧
    (next_selector w s = 3 →
      requests (fetch_https_client_method cfg w s).trace =
        requests s.trace ++ [(CY_HTTP_CLIENT_METHOD_PUT, cfg.HTTP_PATH)]) ∧
    (next_selector w s = 4 →
      requests (fetch_https_client_method cfg w s).trace =
        requests s.trace ++ [(CY_HTTP_CLIENT_METHOD_GET, cfg.HTTP_GET_PATH_AFTER_PUT)]) ∧
    (next_selector w s ≠ 1 → next_selector w s ≠ 2 → next_selector w s ≠ 3 →
      next_selector w s ≠ 4 →
      requests (fetch_https_client_method cfg w s).trace = requests s.trace ∧
        transport_calls (fetch_https_client_method cfg w s).trace =
          transport_calls s.trace) := by
  refine ⟨?_, ?_, ?_, ?_, ?_⟩
  · intro h; simp [fetch_requests, h, hflag]
  · intro h; simp [fetch_requests, h, hflag]
  · intro h; simp [fetch_requests, h, hflag]
  · intro h; simp [fetch_requests, h]
  · intro h1 h2 h3 h4
    exact ⟨by simp [fetch_requests, h1, h2, h3, h4],
      fetch_invalid_transport_calls cfg w s h1 h2 h3 h4⟩

/-- Instance of C3: from the initial state the operator enters 2, and one POST to the
default path is dispatched. -/
theorem selector_mapping_witness :
    State.init.vars.get_after_put_flag = false ∧
    requests (fetch_https_client_method (sample_config 5)
        (sample_world (fun _ => 0) (fun _ => 2)) State.init).trace =
      requests State.init.trace ++ [(CY_HTTP_CLIENT_METHOD_POST, (sample_config 5).HTTP_PATH)] :=
  ⟨rfl, (selector_mapping (sample_config 5) (sample_world (fun _ => 0) (fun _ => 2))
    State.init rfl).2.1 (by decide)⟩

/-- C4 (amended): selecting PUT (selector 3) does not set `get_after_put_flag`: for
every prior state `http_request` is entered with the file-scope variables as they
were, but for the stored method, now PUT, so with the flag as it was.  The one request
of the round is the PUT; it is handed to the dispatcher with the flag false and goes
to `HTTP_PATH` when the flag was false before the round (to
`HTTP_GET_PATH_AFTER_PUT` only when it was already set).  The flag is false after the
round, and a GET (selector 1) selected next goes to `HTTP_PATH`: nothing is latched. -/
theorem put_leaves_flag_clear (cfg : Config) (w : World) (s : State)
    (hsel : next_selector w s = 3) :
    (∃ s0, fetch_https_client_method cfg w s = http_request cfg w s0 ∧
      s0.vars = { s.vars with http_client_method := CY_HTTP_CLIENT_METHOD_PUT } ∧
      s0.vars.get_after_put_flag = s.vars.get_after_put_flag) ∧
    dispatched (fetch_https_client_method cfg w s).trace =
      dispatched s.trace ++
        [{ method := CY_HTTP_CLIENT_METHOD_PUT
           path := if s.vars.get_after_put_flag then cfg.HTTP_GET_PATH_AFTER_PUT
             else cfg.HTTP_PATH
           flag := false }] ∧
    (fetch_https_client_method cfg w s).vars.get_after_put_flag = false ∧
    (next_selector w (fetch_https_client_method cfg w s) = 1 →
      requests (fetch_https_client_method cfg w
          (fetch_https_client_method cfg w s)).trace =
        requests s.trace ++
          [(CY_HTTP_CLIENT_METHOD_PUT,
              if s.vars.get_after_put_flag then cfg.HTTP_GET_PATH_AFTER_PUT
              else cfg.HTTP_PATH),
           (CY_HTTP_CLIENT_METHOD_GET, cfg.HTTP_PATH)]) := by
  refine ⟨?_, ?_, ?_, ?_⟩
  · unfold fetch_https_client_method
    simp only [HTTPS_GET_METHOD, HTTPS_POST_METHOD, HTTPS_PUT_METHOD,
      HTTPS_GET_METHOD_AFTER_PUT, next_selector_emit, next_uart_result_emit, hsel]
    split_ifs <;> first | exact ⟨_, rfl, rfl, rfl⟩ | (exfalso; omega)
  · simp [fetch_dispatched, hsel]
  · simp [fetch_vars, hsel]
  · intro h1
    have hf : (fetch_https_client_method cfg w s).vars.get_after_put_flag = false := by
      simp [fetch_vars, hsel]
    rw [fetch_requests cfg w (fetch_https_client_method cfg w s), fetch_requests cfg w s]
    simp [hsel, h1, hf]

/-- Instance of C4 (amended): from the initial state the operator enters 3 and then 1;
the PUT and the GET both go to the default path. -/
theorem put_leaves_flag_clear_witness :
    dispatched (fetch_https_client_method (sample_config 5)
        (sample_world (fun _ => 0) (fun i => 3 - 2 * i)) State.init).trace =
      dispatched State.init.trace ++
        [{ method := CY_HTTP_CLIENT_METHOD_PUT
           path := if State.init.vars.get_after_put_flag then
               (sample_config 5).HTTP_GET_PATH_AFTER_PUT
             else (sample_config 5).HTTP_PATH
           flag := false }] ∧
    requests (fetch_https_client_method (sample_config 5)
        (sample_world (fun _ => 0) (fun i => 3 - 2 * i))
        (fetch_https_client_method (sample_config 5)
          (sample_world (fun _ => 0) (fun i => 3 - 2 * i)) State.init)).trace =
      requests State.init.trace ++
        [(CY_HTTP_CLIENT_METHOD_PUT,
            if State.init.vars.get_after_put_flag then
              (sample_config 5).HTTP_GET_PATH_AFTER_PUT
            else (sample_config 5).HTTP_PATH),
         (CY_HTTP_CLIENT_METHOD_GET, (sample_config 5).HTTP_PATH)] :=
  ⟨(put_leaves_flag_clear (sample_config 5)
      (sample_world (fun _ => 0) (fun i => 3 - 2 * i)) State.init (by decide)).2.1,
   (put_leaves_flag_clear (sample_config 5)
      (sample_world (fun _ => 0) (fun i => 3 - 2 * i)) State.init (by decide)).2.2.2
      (by decide)⟩

/-- C4 as stated fails: from the initial state the operator enters 3; the PUT is handed
to the dispatcher with the flag false, not true, and the flag is false afterwards. -/
theorem put_dispatched_with_flag_false :
    next_selector (sample_world (fun _ => 0) (fun _ => 3)) State.init = 3 ∧
    dispatched (fetch_https_client_method (sample_config 5)
        (sample_world (fun _ => 0) (fun _ => 3)) State.init).trace =
      [{ method := CY_HTTP_CLIENT_METHOD_PUT, path := "/", flag := false }] ∧
    (fetch_https_client_method (sample_config 5)
        (sample_world (fun _ => 0) (fun _ => 3)) State.init).vars.get_after_put_flag =
      false := by
  decide

/-- C5: for every prior state (any flag, any stored method), selector 4 hands exactly
one request to the dispatcher, a GET to `HTTP_GET_PATH_AFTER_PUT`, which is what the
transport sends once the headers are serialised, and leaves the flag false.  After a
PUT (3) followed by selector 4 the second request goes to `HTTP_GET_PATH_AFTER_PUT`;
the PUT, started with the flag clear, went to `HTTP_PATH`, so the two paths differ
whenever the two configured paths do. -/
theorem get_after_put_path (cfg : Config) (w : World) (s : State) :
    (next_selector w s = 4 →
      requests (fetch_https_client_method cfg w s).trace =
          requests s.trace ++ [(CY_HTTP_CLIENT_METHOD_GET, cfg.HTTP_GET_PATH_AFTER_PUT)] ∧
        sent_requests (fetch_https_client_method cfg w s).trace =
          sent_requests s.trace ++
            (if (w.cy_http_client_write_header s.write_header_calls).1 = CY_RSLT_SUCCESS
              then [(CY_HTTP_CLIENT_METHOD_GET, cfg.HTTP_GET_PATH_AFTER_PUT)]
              else []) ∧
        (fetch_https_client_method cfg w s).vars.get_after_put_flag = false) ∧
    (next_selector w s = 3 → next_selector w (fetch_https_client_method cfg w s) = 4 →
      ∃ put_path,
        requests (fetch_https_client_method cfg w
            (fetch_https_client_method cfg w s)).trace =
          requests s.trace ++ [(CY_HTTP_CLIENT_METHOD_PUT, put_path),
            (CY_HTTP_CLIENT_METHOD_GET, cfg.HTTP_GET_PATH_AFTER_PUT)] ∧
        (fetch_https_client_method cfg w
            (fetch_https_client_method cfg w s)).vars.get_after_put_flag = false ∧
        (s.vars.get_after_put_flag = false → put_path = cfg.HTTP_PATH) ∧
        (s.vars.get_after_put_flag = false → cfg.HTTP_PATH ≠ cfg.HTTP_GET_PATH_AFTER_PUT →
          cfg.HTTP_GET_PATH_AFTER_PUT ≠ put_path)) := by
  constructor
  · intro h
    exact ⟨by simp [fetch_requests, h], fetch_sent_after_put cfg w s h,
      by simp [fetch_vars, h]⟩
  · intro h3 h4
    refine ⟨if s.vars.get_after_put_flag then cfg.HTTP_GET_PATH_AFTER_PUT else cfg.HTTP_PATH,
      ?_, ?_, ?_, ?_⟩
    · rw [fetch_requests cfg w (fetch_https_client_method cfg w s), fetch_requests cfg w s]
      simp [h3, h4]
    · rw [fetch_vars cfg w (fetch_https_client_method cfg w s)]
      simp [h4]
    · intro hf; simp [hf]
    · intro hf hne; simp [hf]; exact fun e => hne e.symm

/-- Instance of C5: from the initial state the operator enters 3 and then 4. -/
theorem get_after_put_path_witness :
    ∃ put_path,
      requests (fetch_https_client_method (sample_config 5)
          (sample_world (fun _ => 0) (fun i => 3 + i))
          (fetch_https_client_method (sample_config 5)
            (sample_world (fun _ => 0) (fun i => 3 + i)) State.init)).trace =
        requests State.init.trace ++ [(CY_HTTP_CLIENT_METHOD_PUT, put_path),
          (CY_HTTP_CLIENT_METHOD_GET, (sample_config 5).HTTP_GET_PATH_AFTER_PUT)] ∧
      (fetch_https_client_method (sample_config 5)
          (sample_world (fun _ => 0) (fun i => 3 + i))
          (fetch_https_client_method (sample_config 5)
            (sample_world (fun _ => 0) (fun i => 3 + i))
            State.init)).vars.get_after_put_flag = false ∧
      (State.init.vars.get_after_put_flag = false → put_path = (sample_config 5).HTTP_PATH) ∧
      (State.init.vars.get_after_put_flag = false →
        (sample_config 5).HTTP_PATH ≠ (sample_config 5).HTTP_GET_PATH_AFTER_PUT →
        (sample_config 5).HTTP_GET_PATH_AFTER_PUT ≠ put_path) :=
  (get_after_put_path (sample_config 5) (sample_world (fun _ => 0) (fun i => 3 + i))
    State.init).2 (by decide) (by decide)

/-- One round with a plain selector 1, 2 or 3 (GET, POST, PUT), by the flag it finds:
exactly one request is sent, with the method the selector stands for.  When the flag
is false before the round, the request goes to `HTTP_PATH` and the flag is unchanged;
were it true, the request would go to `HTTP_GET_PATH_AFTER_PUT` and the flag would be
cleared. -/
theorem plain_dispatch_flag (cfg : Config) (w : World) (s : State)
    (method : cy_http_client_method_t)
    (hsel : (next_selector w s = 1 ∧ method = CY_HTTP_CLIENT_METHOD_GET) ∨
      (next_selector w s = 2 ∧ method = CY_HTTP_CLIENT_METHOD_POST) ∨
      (next_selector w s = 3 ∧ method = CY_HTTP_CLIENT_METHOD_PUT)) :
    (s.vars.get_after_put_flag = false →
      requests (fetch_https_client_method cfg w s).trace =
          requests s.trace ++ [(method, cfg.HTTP_PATH)] ∧
        (fetch_https_client_method cfg w s).vars.get_after_put_flag =
          s.vars.get_after_put_flag) ∧
    (s.vars.get_after_put_flag = true →
      requests (fetch_https_client_method cfg w s).trace =
          requests s.trace ++ [(method, cfg.HTTP_GET_PATH_AFTER_PUT)] ∧
        (fetch_https_client_method cfg w s).vars.get_after_put_flag = false) := by
  rcases hsel with ⟨h, rfl⟩ | ⟨h, rfl⟩ | ⟨h, rfl⟩ <;>
    exact ⟨fun hf => ⟨by simp [fetch_requests, h, hf], by simp [fetch_vars, h, hf]⟩,
      fun hf => ⟨by simp [fetch_requests, h, hf], by simp [fetch_vars, h]⟩⟩

/-- C7: for every selector value outside 1..4 and every prior state, one iteration makes
no transport call (no header serialisation, no send) and leaves the file-scope
variables, among them `get_after_put_flag`, `http_client_method` and `https_client`,
unchanged.  This holds whether or not the console read reports success. -/
theorem invalid_selector_frame (cfg : Config) (w : World) (s : State)
    (h1 : next_selector w s ≠ 1) (h2 : next_selector w s ≠ 2) (h3 : next_selector w s ≠ 3)
    (h4 : next_selector w s ≠ 4) :
    transport_calls (fetch_https_client_method cfg w s).trace = transport_calls s.trace ∧
    write_headers (fetch_https_client_method cfg w s).trace = write_headers s.trace ∧
    sends (fetch_https_client_method cfg w s).trace = sends s.trace ∧
    (fetch_https_client_method cfg w s).vars = s.vars ∧
    (fetch_https_client_method cfg w s).vars.get_after_put_flag = s.vars.get_after_put_flag ∧
    (fetch_https_client_method cfg w s).vars.http_client_method = s.vars.http_client_method ∧
    (fetch_https_client_method cfg w s).vars.https_client = s.vars.https_client := by
  have hv : (fetch_https_client_method cfg w s).vars = s.vars := by
    simp [fetch_vars, h1, h2, h3, h4]
  refine ⟨fetch_invalid_transport_calls cfg w s h1 h2 h3 h4, ?_, ?_, hv, ?_, ?_, ?_⟩
  · unfold fetch_https_client_method
    simp only [HTTPS_GET_METHOD, HTTPS_POST_METHOD, HTTPS_PUT_METHOD,
      HTTPS_GET_METHOD_AFTER_PUT, next_selector_emit, next_uart_result_emit, h1, h2, h3, h4,
      if_false]
    split_ifs <;> simp [write_headers, Call.is_write_header]
  · unfold fetch_https_client_method
    simp only [HTTPS_GET_METHOD, HTTPS_POST_METHOD, HTTPS_PUT_METHOD,
      HTTPS_GET_METHOD_AFTER_PUT, next_selector_emit, next_uart_result_emit, h1, h2, h3, h4,
      if_false]
    split_ifs <;> simp [sends, Call.is_send]
  · rw [hv]
  · rw [hv]
  · rw [hv]

/-- Instance of C7: the operator enters 9 in a state whose flag is set. -/
theorem invalid_selector_frame_witness :
    transport_calls (fetch_https_client_method (sample_config 5)
        (sample_world (fun _ => 0) (fun _ => 9)) flag_set_state).trace =
      transport_calls flag_set_state.trace ∧
    (fetch_https_client_method (sample_config 5)
        (sample_world (fun _ => 0) (fun _ => 9)) flag_set_state).vars = flag_set_state.vars :=
  ⟨(invalid_selector_frame (sample_config 5) (sample_world (fun _ => 0) (fun _ => 9))
      flag_set_state (by decide) (by decide) (by decide) (by decide)).1,
   (invalid_selector_frame (sample_config 5) (sample_world (fun _ => 0) (fun _ => 9))
      flag_set_state (by decide) (by decide) (by decide) (by decide)).2.2.2.1⟩

/-! ## The status report and the client configuration -/

/-- Whatever `http_request` reports as status code is the value the file-scope
`http_response` had before the request; the response the transport fills in does
not enter the report. -/
theorem http_request_reports_static (cfg : Config) (w : World) (s : State) :
    ∃ reports, reported_status_codes (http_request cfg w s).trace =
        reported_status_codes s.trace ++ reports ∧
      ∀ n ∈ reports, n = (s.vars.http_response.status_code : Int) := by
  unfold http_request
  cases hf : s.vars.get_after_put_flag <;>
    simp only [hf, if_true, if_false, Bool.false_eq_true] <;>
    split_ifs
  · exact ⟨[], by simp [reported_emit, Obs.reported_status, send_http_request_reported,
      -emit_trace], by simp⟩
  · exact ⟨[(s.vars.http_response.status_code : Int)],
      by simp [reported_emit, Obs.reported_status, send_http_request_reported,
        send_http_request_vars, STATUS_CODE_FORMAT, -emit_trace], by simp⟩
  · exact ⟨[], by simp [reported_emit, Obs.reported_status, send_http_request_reported,
      -emit_trace], by simp⟩
  · exact ⟨[(s.vars.http_response.status_code : Int)],
      by simp [reported_emit, Obs.reported_status, send_http_request_reported,
        send_http_request_vars, STATUS_CODE_FORMAT, -emit_trace], by simp⟩

/-- C9 (code defect): from the initial state the operator enters 1, header
serialisation and send succeed, and the transport fills in a response with status 200;
the request is sent once, and the status code reported to the operator is 0, the
value of the never-written file-scope `http_response`, not 200. -/
theorem reported_status_is_not_the_response :
    ((sample_world (fun _ => 0) (fun _ => 1)).cy_http_client_send
        State.init.send_calls).1 = CY_RSLT_SUCCESS ∧
    ((sample_world (fun _ => 0) (fun _ => 1)).cy_http_client_send
        State.init.send_calls).2.status_code = 200 ∧
    sends (fetch_https_client_method (sample_config 5)
        (sample_world (fun _ => 0) (fun _ => 1)) State.init).trace = 1 ∧
    reported_status_codes (fetch_https_client_method (sample_config 5)
        (sample_world (fun _ => 0) (fun _ => 1)) State.init).trace = [0] := by
  decide

/-- The result of `configure_https_client` is the result of `cy_http_client_create`;
the result of `cy_http_client_init` is overwritten. -/
theorem configure_https_client_result (cfg : Config) (w : World) (s : State) :
    (configure_https_client cfg w s).1 = w.cy_http_client_create.1 := rfl

/-- C10 (code defect): when `cy_http_client_init` fails with code 1 and
`cy_http_client_create` succeeds, `configure_https_client` returns `CY_RSLT_SUCCESS`. -/
theorem configure_https_client_masks_init_failure :
    ({ sample_world (fun _ => 0) (fun _ => 1) with
        cy_http_client_init := 1 } : World).cy_http_client_init ≠ CY_RSLT_SUCCESS ∧
    ({ sample_world (fun _ => 0) (fun _ => 1) with
        cy_http_client_init := 1 } : World).cy_http_client_create.1 = CY_RSLT_SUCCESS ∧
    (configure_https_client (sample_config 5)
        { sample_world (fun _ => 0) (fun _ => 1) with cy_http_client_init := 1 }
        State.init).1 = CY_RSLT_SUCCESS := by
  decide

/-! ## Milestones of the task -/

theorem milestones_emit (c : Call) (s : State) :
    milestones (emit c s).trace =
      milestones s.trace ++ (Obs.milestone { call := c, vars := s.vars }).toList := by
  cases h : Obs.milestone { call := c, vars := s.vars } <;> simp [milestones, h]

theorem app_errors_emit (c : Call) (s : State) :
    app_errors (emit c s).trace = app_errors s.trace + (if c.is_app_error then 1 else 0) := by
  cases h : c.is_app_error <;> simp [app_errors, h]

/-- C11: when the SDIO bring-up succeeds and `cy_wcm_init` fails, `wifi_connect` calls
`cy_wcm_init` once and no more, makes no join attempt, calls `handle_app_error` once
and is stopped there: it returns no result, and the task is stopped with it. -/
theorem wifi_connect_init_failure (cfg : Config) (w : World) (s : State) (iterations : Nat)
    (h1 : w.sdio_interrupt_init_status = CY_SYSINT_SUCCESS)
    (h2 : w.mtb_hal_sdio_setup = CY_RSLT_SUCCESS)
    (h3 : w.host_wake_interrupt_init_status = CY_SYSINT_SUCCESS)
    (hinit : w.cy_wcm_init ≠ CY_RSLT_SUCCESS) :
    ∃ s1, wifi_connect cfg w s = Outcome.halted s1 ∧
      https_client_task cfg w iterations s = TaskOutcome.halted s1 ∧
      join_attempts s1.trace = join_attempts s.trace ∧
      milestones s1.trace = milestones s.trace ++ [Milestone.cy_wcm_init] ∧
      app_errors s1.trace = app_errors s.trace + 1 := by
  have hinit2 : ¬ CY_RSLT_SUCCESS = w.cy_wcm_init := fun e => hinit e.symm
  have hrun : wifi_connect cfg w s = Outcome.halted
      (emit Call.handle_app_error
        (emit (Call.printf "Wi-Fi Connection Manager initialization failed!\n" [])
          (emit Call.cy_wcm_init
            (emit (Call.hal "NVIC_EnableIRQ")
            (emit (Call.hal "Cy_SysInt_Init")
            (emit (Call.hal "mtb_hal_gpio_setup")
            (emit (Call.hal "mtb_hal_gpio_setup")
            (emit (Call.hal "mtb_hal_sdio_configure")
            (emit (Call.hal "Cy_SD_Host_SetHostBusWidth")
            (emit (Call.hal "Cy_SD_Host_Init")
            (emit (Call.hal "Cy_SD_Host_Enable")
            (emit (Call.hal "mtb_hal_sdio_setup")
            (emit (Call.hal "NVIC_EnableIRQ")
            (emit (Call.hal "Cy_SysInt_Init") s)))))))))))))) := by
    simp only [wifi_connect, app_sdio_init, h1, h2, h3, hinit2, handle_app_error, ne_eq,
      not_true_eq_false, if_false]
  refine ⟨_, hrun, ?_, ?_, ?_, ?_⟩
  · simp only [https_client_task, hrun]
  · simp [join_attempts_emit, Call.is_join, -emit_trace]
  · simp [milestones_emit, Obs.milestone, -emit_trace]
  · simp [app_errors_emit, Call.is_app_error, -emit_trace]

/-- Instance of C11: `cy_wcm_init` answers the error code 3. -/
theorem wifi_connect_init_failure_witness :
    ∃ s1, wifi_connect (sample_config 5)
        { sample_world (fun _ => 0) (fun _ => 1) with cy_wcm_init := 3 } State.init =
        Outcome.halted s1 ∧
      https_client_task (sample_config 5)
        { sample_world (fun _ => 0) (fun _ => 1) with cy_wcm_init := 3 } 2 State.init =
        TaskOutcome.halted s1 ∧
      join_attempts s1.trace = join_attempts State.init.trace ∧
      milestones s1.trace = milestones State.init.trace ++ [Milestone.cy_wcm_init] ∧
      app_errors s1.trace = app_errors State.init.trace + 1 :=
  wifi_connect_init_failure (sample_config 5)
    { sample_world (fun _ => 0) (fun _ => 1) with cy_wcm_init := 3 } State.init 2
    rfl rfl rfl (by decide)

/-- SDIO bring-up that returns has made no milestone call and no transport call and has
left the flag alone. -/
theorem app_sdio_init_frame (w : World) (s s0 : State)
    (h : app_sdio_init w s = Outcome.returned () s0) :
    milestones s0.trace = milestones s.trace ∧
      transport_calls s0.trace = transport_calls s.trace ∧
      s0.vars.get_after_put_flag = s.vars.get_after_put_flag := by
  unfold app_sdio_init at h
  simp only [handle_app_error] at h
  split_ifs at h
  injection h with _ h
  subst h
  simp [milestones_emit, Obs.milestone, transport_calls_emit, Call.is_transport, -emit_trace]

theorem call_connect_ap_frame (cfg : Config) (w : World) (s : State) :
    milestones (call_connect_ap cfg w s).2.trace = milestones s.trace ∧
      transport_calls (call_connect_ap cfg w s).2.trace = transport_calls s.trace ∧
      (call_connect_ap cfg w s).2.vars.get_after_put_flag = s.vars.get_after_put_flag := by
  rcases h : (w.cy_wcm_connect_ap s.connect_ap_calls).2 with _ | a <;>
    simp [call_connect_ap, h, milestones, Obs.milestone, transport_calls, Call.is_transport]

/-- The join loop makes no milestone call and no transport call and leaves the flag
alone. -/
theorem wifi_connect_loop_frame (cfg : Config) (w : World) :
    ∀ (fuel retry_count : Nat) (result : cy_rslt_t) (s : State) (r : cy_rslt_t) (s1 : State),
      wifi_connect_loop cfg w fuel retry_count result s = some (r, s1) →
      milestones s1.trace = milestones s.trace ∧
        transport_calls s1.trace = transport_calls s.trace ∧
        s1.vars.get_after_put_flag = s.vars.get_after_put_flag := by
  intro fuel
  induction fuel with
  | zero => intro retry_count result s r s1 h; simp [wifi_connect_loop] at h
  | succ f ih =>
    intro retry_count result s r s1 h
    obtain ⟨hm, ht, hf⟩ := call_connect_ap_frame cfg w s
    by_cases hlt : retry_count < cfg.MAX_WIFI_RETRY_COUNT
    · by_cases hok : CY_RSLT_SUCCESS = (call_connect_ap cfg w s).1
      · rw [wifi_connect_loop] at h
        simp only [hlt, if_true] at h
        rw [if_pos hok] at h
        simp only [Option.some.injEq, Prod.mk.injEq] at h
        obtain ⟨_, rfl⟩ := h
        split_ifs <;>
          simp [milestones_emit, Obs.milestone, transport_calls_emit, Call.is_transport,
            -emit_trace, hm, ht, hf]
      · rw [wifi_connect_loop] at h
        simp only [hlt, if_true, hok, if_false] at h
        obtain ⟨hm1, ht1, hf1⟩ := ih _ _ _ r s1 h
        rw [hm1, ht1, hf1]
        simp [milestones_emit, Obs.milestone, transport_calls_emit, Call.is_transport,
          -emit_trace, hm, ht, hf]
    · rw [wifi_connect_loop] at h
      simp only [hlt, if_false, Option.some.injEq, Prod.mk.injEq] at h
      obtain ⟨_, rfl⟩ := h
      exact ⟨rfl, rfl, rfl⟩

/-- A `wifi_connect` that returns has called `cy_wcm_init` once, and has made no other
milestone call and no transport call; the flag is as before. -/
theorem wifi_connect_frame (cfg : Config) (w : World) (s : State) (r : cy_rslt_t)
    (s1 : State) (h : wifi_connect cfg w s = Outcome.returned r s1) :
    milestones s1.trace = milestones s.trace ++ [Milestone.cy_wcm_init] ∧
      transport_calls s1.trace = transport_calls s.trace ∧
      s1.vars.get_after_put_flag = s.vars.get_after_put_flag := by
  unfold wifi_connect at h
  rcases hs : app_sdio_init w s with ⟨u, s0⟩ | s0 | _
  · obtain ⟨hm, ht, hf⟩ := app_sdio_init_frame w s s0 hs
    rw [hs] at h
    simp only [handle_app_error] at h
    split_ifs at h with hinit
    rcases hl : wifi_connect_loop cfg w (cfg.MAX_WIFI_RETRY_COUNT + 1) INITIAL_VALUE
        w.cy_wcm_init
        (emit (Call.APP_INFO "Join to AP: %s\n" [PrintArg.str cfg.WIFI_SSID])
          (emit (Call.APP_INFO "Wi-Fi initialization is successful\n" [])
            (emit Call.cy_wcm_init s0))) with _ | ⟨r2, s2⟩
    · rw [hl] at h; simp at h
    · rw [hl] at h
      simp only [Outcome.returned.injEq] at h
      obtain ⟨_, rfl⟩ := h
      obtain ⟨hm1, ht1, hf1⟩ := wifi_connect_loop_frame cfg w _ _ _ _ _ _ hl
      rw [hm1, ht1, hf1]
      simp [milestones_emit, Obs.milestone, transport_calls_emit, Call.is_transport,
        -emit_trace, hm, ht, hf]
  · rw [hs] at h; simp at h
  · rw [hs] at h; simp at h

theorem configure_https_client_frame (cfg : Config) (w : World) (s : State) :
    milestones (configure_https_client cfg w s).2.trace =
        milestones s.trace ++
          [Milestone.cy_http_client_init, Milestone.cy_http_client_create] ∧
      transport_calls (configure_https_client cfg w s).2.trace = transport_calls s.trace ∧
      (configure_https_client cfg w s).2.vars.get_after_put_flag =
        s.vars.get_after_put_flag := by
  unfold configure_https_client
  simp only
  rcases h : w.cy_http_client_create.2 with _ | a <;>
    split_ifs <;>
    simp [milestones, Obs.milestone, transport_calls, Call.is_transport]

theorem send_http_request_milestones (cfg : Config) (w : World) (handle : cy_http_client_t)
    (method : cy_http_client_method_t) (pPath : String) (s : State) :
    milestones (send_http_request cfg w handle method pPath s).2.trace =
      milestones s.trace := by
  unfold send_http_request
  simp only
  split_ifs <;> simp [milestones, Obs.milestone]

theorem http_request_milestones (cfg : Config) (w : World) (s : State) :
    milestones (http_request cfg w s).trace = milestones s.trace := by
  unfold http_request
  cases hf : s.vars.get_after_put_flag <;>
    simp only [hf, if_true, if_false, Bool.false_eq_true] <;>
    split_ifs <;>
    simp [milestones_emit, Obs.milestone, send_http_request_milestones, -emit_trace]

/-- Each round of the command loop reads the console exactly once. -/
theorem fetch_milestones (cfg : Config) (w : World) (s : State) :
    milestones (fetch_https_client_method cfg w s).trace =
      milestones s.trace ++ [Milestone.scanf] := by
  unfold fetch_https_client_method
  simp only [next_selector_emit, next_uart_result_emit]
  split_ifs <;>
    simp [http_request_milestones, milestones_emit, Obs.milestone, -emit_trace]

theorem command_loop_milestones (cfg : Config) (w : World) :
    ∀ (n : Nat) (s : State),
      milestones (command_loop cfg w n s).trace =
        milestones s.trace ++ List.replicate n Milestone.scanf := by
  intro n
  induction n with
  | zero => intro s; simp [command_loop]
  | succ n ih =>
    intro s
    rw [command_loop, ih, fetch_milestones, List.append_assoc]
    rfl

theorem command_loop_succ (cfg : Config) (w : World) :
    ∀ (n : Nat) (s : State),
      command_loop cfg w (n + 1) s =
        fetch_https_client_method cfg w (command_loop cfg w n s) := by
  intro n
  induction n with
  | zero => intro s; rfl
  | succ n ih => intro s; rw [command_loop, ih]; rfl

/-- The flag is false at the top of the loop after any number of rounds, when it was
false at the first. -/
theorem command_loop_flag_false (cfg : Config) (w : World) :
    ∀ (n : Nat) (s : State), s.vars.get_after_put_flag = false →
      (command_loop cfg w n s).vars.get_after_put_flag = false := by
  intro n
  induction n with
  | zero => intro s h; exact h
  | succ n ih => intro s h; exact ih _ (fetch_flag_false cfg w s h)

/-- The task after a `wifi_connect` that returns, by the results of the later steps. -/
theorem task_after_join (cfg : Config) (w : World) (n : Nat) (s : State) (r : cy_rslt_t)
    (s1 : State) (h : wifi_connect cfg w s = Outcome.returned r s1) :
    https_client_task cfg w n s =
      if CY_RSLT_SUCCESS ≠ r then
        TaskOutcome.halted (emit (Call.ERR_INFO "Wi-Fi connection failed.\n" []) s1)
      else if CY_RSLT_SUCCESS ≠ w.cy_http_client_create.1 then
        TaskOutcome.halted (emit (Call.ERR_INFO "Failed to configure the HTTPS client.\n" [])
          (configure_https_client cfg w s1).2)
      else if CY_RSLT_SUCCESS ≠ w.cy_http_client_connect then
        TaskOutcome.returned
          (emit (Call.ERR_INFO "Failed to connect to the http server.\n" [])
            (emit (Call.cy_http_client_connect
                (configure_https_client cfg w s1).2.vars.https_client
                cfg.TRANSPORT_SEND_RECV_TIMEOUT_MS cfg.TRANSPORT_SEND_RECV_TIMEOUT_MS)
              (configure_https_client cfg w s1).2))
      else
        TaskOutcome.looping (command_loop cfg w n
          (emit (Call.printf "Successfully connected to http server\r\n" [])
            (emit (Call.cy_http_client_connect
                (configure_https_client cfg w s1).2.vars.https_client
                cfg.TRANSPORT_SEND_RECV_TIMEOUT_MS cfg.TRANSPORT_SEND_RECV_TIMEOUT_MS)
              (configure_https_client cfg w s1).2))) := by
  have hc : (configure_https_client cfg w s1).1 = w.cy_http_client_create.1 := rfl
  unfold https_client_task
  rw [h]
  simp only [PRINT_AND_ASSERT]
  by_cases h1 : CY_RSLT_SUCCESS ≠ r
  · simp only [if_pos h1]
  · simp only [if_neg h1]
    by_cases h2 : CY_RSLT_SUCCESS ≠ w.cy_http_client_create.1
    · simp only [hc, if_pos h2]
    · simp only [hc, if_neg h2]

/-! ## Failures before the command loop -/

/-- C12: when `wifi_connect` returns a result other than success (the join failed on
all the allowed attempts), the task is stopped right after it: beyond the one
`cy_wcm_init` of `wifi_connect` there is no call of `cy_http_client_init`,
`cy_http_client_create` or `cy_http_client_connect`, no console read and no transport
call, for any number of loop rounds asked for. -/
theorem join_failure_stops_task (cfg : Config) (w : World) (n : Nat) (s : State)
    (r : cy_rslt_t) (s1 : State) (hjoin : wifi_connect cfg w s = Outcome.returned r s1)
    (hr : r ≠ CY_RSLT_SUCCESS) :
    ∃ s2, https_client_task cfg w n s = TaskOutcome.halted s2 ∧
      milestones s2.trace = milestones s.trace ++ [Milestone.cy_wcm_init] ∧
      transport_calls s2.trace = transport_calls s.trace := by
  obtain ⟨hm, ht, _⟩ := wifi_connect_frame cfg w s r s1 hjoin
  have hr2 : CY_RSLT_SUCCESS ≠ r := fun e => hr e.symm
  refine ⟨emit (Call.ERR_INFO "Wi-Fi connection failed.\n" []) s1, ?_, ?_, ?_⟩
  · rw [task_after_join cfg w n s r s1 hjoin, if_pos hr2]
  · simp [milestones_emit, Obs.milestone, -emit_trace, hm]
  · simp [transport_calls_emit, Call.is_transport, -emit_trace, ht]

/-- Instance of C12: limit 5, every join attempt answers the error code 1. -/
theorem join_failure_stops_task_witness :
    ∃ s2, https_client_task (sample_config 5) (sample_world (fun _ => 1) (fun _ => 1)) 3
        State.init = TaskOutcome.halted s2 ∧
      milestones s2.trace = milestones State.init.trace ++ [Milestone.cy_wcm_init] ∧
      transport_calls s2.trace = transport_calls State.init.trace :=
  join_failure_stops_task (sample_config 5) (sample_world (fun _ => 1) (fun _ => 1)) 3
    State.init _ _ rfl (by decide)

/-- C13: when `cy_http_client_connect` fails, the task never is in the command loop;
after a successful join and configuration it returns with exactly one call of
`cy_http_client_connect`, no console read and no transport call.  Conversely, whenever
the task is in the command loop, `cy_http_client_connect` succeeded and the calls
before the first console read were, in this order and once each, those of
`wifi_connect` (`cy_wcm_init`), of `configure_https_client` (`cy_http_client_init`,
`cy_http_client_create`) and `cy_http_client_connect`. -/
theorem connect_failure_skips_loop (cfg : Config) (w : World) (n : Nat) (s : State) :
    (w.cy_http_client_connect ≠ CY_RSLT_SUCCESS →
      ∀ s2, https_client_task cfg w n s ≠ TaskOutcome.looping s2) ∧
    (w.cy_http_client_connect ≠ CY_RSLT_SUCCESS →
      ∀ s1, wifi_connect cfg w s = Outcome.returned CY_RSLT_SUCCESS s1 →
        w.cy_http_client_create.1 = CY_RSLT_SUCCESS →
        ∃ s2, https_client_task cfg w n s = TaskOutcome.returned s2 ∧
          milestones s2.trace = milestones s.trace ++
            [Milestone.cy_wcm_init, Milestone.cy_http_client_init,
             Milestone.cy_http_client_create, Milestone.cy_http_client_connect] ∧
          reads s2.trace = reads s.trace ∧
          connect_calls s2.trace = connect_calls s.trace + 1 ∧
          transport_calls s2.trace = transport_calls s.trace) ∧
    (∀ s2, https_client_task cfg w n s = TaskOutcome.looping s2 →
      w.cy_http_client_connect = CY_RSLT_SUCCESS ∧
        milestones s2.trace = milestones s.trace ++
          [Milestone.cy_wcm_init, Milestone.cy_http_client_init,
           Milestone.cy_http_client_create, Milestone.cy_http_client_connect] ++
          List.replicate n Milestone.scanf) := by
  have hloop : ∀ s2, https_client_task cfg w n s = TaskOutcome.looping s2 →
      w.cy_http_client_connect = CY_RSLT_SUCCESS ∧
        milestones s2.trace = milestones s.trace ++
          [Milestone.cy_wcm_init, Milestone.cy_http_client_init,
           Milestone.cy_http_client_create, Milestone.cy_http_client_connect] ++
          List.replicate n Milestone.scanf := by
    intro s2 h
    rcases hw : wifi_connect cfg w s with ⟨r, s1⟩ | s1 | _
    · obtain ⟨hm, _, _⟩ := wifi_connect_frame cfg w s r s1 hw
      obtain ⟨hcm, _, _⟩ := configure_https_client_frame cfg w s1
      rw [task_after_join cfg w n s r s1 hw] at h
      split_ifs at h with h1 h2 h3
      simp only [TaskOutcome.looping.injEq] at h
      subst h
      refine ⟨by simpa [eq_comm] using h3, ?_⟩
      rw [command_loop_milestones]
      simp [milestones_emit, Obs.milestone, -emit_trace, hcm, hm]
    · simp [https_client_task, hw] at h
    · simp [https_client_task, hw] at h
  refine ⟨?_, ?_, hloop⟩
  · intro hc s2 h
    exact hc (hloop s2 h).1
  · intro hc s1 hw hcreate
    obtain ⟨hm, ht, _⟩ := wifi_connect_frame cfg w s _ s1 hw
    obtain ⟨hcm, hct, _⟩ := configure_https_client_frame cfg w s1
    have h3 : CY_RSLT_SUCCESS ≠ w.cy_http_client_connect := fun e => hc e.symm
    have hmil : milestones
        (emit (Call.ERR_INFO "Failed to connect to the http server.\n" [])
          (emit (Call.cy_http_client_connect
              (configure_https_client cfg w s1).2.vars.https_client
              cfg.TRANSPORT_SEND_RECV_TIMEOUT_MS cfg.TRANSPORT_SEND_RECV_TIMEOUT_MS)
            (configure_https_client cfg w s1).2)).trace =
        milestones s.trace ++
          [Milestone.cy_wcm_init, Milestone.cy_http_client_init,
           Milestone.cy_http_client_create, Milestone.cy_http_client_connect] := by
      simp [milestones_emit, Obs.milestone, -emit_trace, hcm, hm]
    refine ⟨emit (Call.ERR_INFO "Failed to connect to the http server.\n" [])
      (emit (Call.cy_http_client_connect
          (configure_https_client cfg w s1).2.vars.https_client
          cfg.TRANSPORT_SEND_RECV_TIMEOUT_MS cfg.TRANSPORT_SEND_RECV_TIMEOUT_MS)
        (configure_https_client cfg w s1).2), ?_, hmil, ?_, ?_, ?_⟩
    · rw [task_after_join cfg w n s _ s1 hw]
      simp [hcreate, h3]
    · unfold reads
      rw [hmil]
      simp
    · unfold connect_calls
      rw [hmil]
      simp
    · simp [transport_calls_emit, Call.is_transport, -emit_trace, hct, ht]

/-- Instance of C13: join and configuration succeed, `cy_http_client_connect` answers
the error code 5. -/
theorem connect_failure_skips_loop_witness :
    ∃ s2, https_client_task (sample_config 5)
        { sample_world (fun _ => 0) (fun _ => 1) with cy_http_client_connect := 5 } 3
        State.init = TaskOutcome.returned s2 ∧
      milestones s2.trace = milestones State.init.trace ++
        [Milestone.cy_wcm_init, Milestone.cy_http_client_init,
         Milestone.cy_http_client_create, Milestone.cy_http_client_connect] ∧
      reads s2.trace = reads State.init.trace ∧
      connect_calls s2.trace = connect_calls State.init.trace + 1 ∧
      transport_calls s2.trace = transport_calls State.init.trace :=
  (connect_failure_skips_loop (sample_config 5)
    { sample_world (fun _ => 0) (fun _ => 1) with cy_http_client_connect := 5 } 3
    State.init).2.1 (by decide) _ rfl rfl

/-! ## The transport calls of a request and of a round -/

theorem send_http_request_transport_calls (cfg : Config) (w : World)
    (handle : cy_http_client_t) (method : cy_http_client_method_t) (pPath : String)
    (s : State) :
    transport_calls (send_http_request cfg w handle method pPath s).2.trace =
      transport_calls s.trace ++
        request_calls cfg (w.cy_http_client_write_header s.write_header_calls) handle method
          pPath := by
  have h12 : sizeof "Content-Type" - LAST_INDEX = 12 := by decide
  have h33 : sizeof "application/x-www-form-urlencoded" - LAST_INDEX = 33 := by decide
  unfold send_http_request request_calls
  simp only [h12, h33]
  by_cases h : (w.cy_http_client_write_header s.write_header_calls).1 = CY_RSLT_SUCCESS
  · have h2 : ¬ CY_RSLT_SUCCESS ≠ (w.cy_http_client_write_header s.write_header_calls).1 :=
      fun e => e h.symm
    simp only [if_neg h2, if_pos h]
    split_ifs <;> simp [transport_calls, Call.is_transport]
  · have h2 : CY_RSLT_SUCCESS ≠ (w.cy_http_client_write_header s.write_header_calls).1 :=
      fun e => h e.symm
    simp only [if_pos h2, if_neg h]
    simp [transport_calls, Call.is_transport]

theorem http_request_transport_calls (cfg : Config) (w : World) (s : State) :
    transport_calls (http_request cfg w s).trace =
      transport_calls s.trace ++
        request_calls cfg (w.cy_http_client_write_header s.write_header_calls)
          s.vars.https_client s.vars.http_client_method
          (if s.vars.get_after_put_flag then cfg.HTTP_GET_PATH_AFTER_PUT
            else cfg.HTTP_PATH) := by
  unfold http_request
  cases hf : s.vars.get_after_put_flag <;>
    simp only [hf, if_true, if_false, Bool.false_eq_true] <;>
    split_ifs <;>
    simp [transport_calls_emit, Call.is_transport, send_http_request_transport_calls,
      -emit_trace]

/-- The transport calls of one round of the command loop. -/
theorem fetch_transport_calls (cfg : Config) (w : World) (s : State) :
    transport_calls (fetch_https_client_method cfg w s).trace =
      transport_calls s.trace ++
        iteration_calls cfg (next_selector w s)
          (w.cy_http_client_write_header s.write_header_calls) s.vars := by
  unfold fetch_https_client_method iteration_calls
  simp only [HTTPS_GET_METHOD, HTTPS_POST_METHOD, HTTPS_PUT_METHOD, HTTPS_GET_METHOD_AFTER_PUT,
    next_selector_emit, next_uart_result_emit]
  split_ifs <;>
    simp [http_request_transport_calls, transport_calls_emit, Call.is_transport, -emit_trace] <;>
    simp_all

/-! ## The request handed to the transport -/

/-- C14: for every handle, method and path, `send_http_request` hands the transport a
request with that method and that path over the shared buffer with capacity
`HTTP_GET_BUFFER_LENGTH`, together with the header `Content-Type` (length 12, its
character count) of value `application/x-www-form-urlencoded` (length 33, likewise);
when the serialisation succeeds, the same request is sent with the fixed body
`REQUEST_BODY` of length `REQUEST_BODY_LENGTH`, whatever the method. -/
theorem send_http_request_request (cfg : Config) (w : World) (handle : cy_http_client_t)
    (method : cy_http_client_method_t) (pPath : String) (s : State) :
    transport_calls (send_http_request cfg w handle method pPath s).2.trace =
      transport_calls s.trace ++
        (Call.cy_http_client_write_header handle
            { buffer := Buffer.http_get_buffer
              buffer_len := cfg.HTTP_GET_BUFFER_LENGTH
              headers_len := cfg.HTTP_REQUEST_HEADER_LEN
              method := method
              range_end := cfg.HTTP_REQUEST_RANGE_END
              range_start := cfg.HTTP_REQUEST_RANGE_START
              resource_path := pPath }
            { field := "Content-Type", field_len := 12
              value := "application/x-www-form-urlencoded", value_len := 33 }
            cfg.NUM_HTTP_HEADERS ::
          if (w.cy_http_client_write_header s.write_header_calls).1 = CY_RSLT_SUCCESS then
            [Call.cy_http_client_send handle
              { buffer := Buffer.http_get_buffer
                buffer_len := cfg.HTTP_GET_BUFFER_LENGTH
                headers_len := (w.cy_http_client_write_header s.write_header_calls).2
                method := method
                range_end := cfg.HTTP_REQUEST_RANGE_END
                range_start := cfg.HTTP_REQUEST_RANGE_START
                resource_path := pPath }
              cfg.REQUEST_BODY cfg.REQUEST_BODY_LENGTH]
          else []) ∧
    "Content-Type".length = 12 ∧ "application/x-www-form-urlencoded".length = 33 := by
  refine ⟨?_, by decide, by decide⟩
  rw [send_http_request_transport_calls]
  rfl

/-! ## The command loop in steady state -/

/-- C15: the file-scope variables after one round depend on the selector alone: two
worlds that give the same selector leave the same variables, whether the header
serialisation failed, the send failed or the request succeeded.  The loop has no exit:
a task that is in the loop after `n` rounds is in the loop after `n + 1` rounds, in
the state the next round produces, and `n` rounds read the console `n` times. -/
theorem request_failure_recoverable (cfg : Config) (w1 w2 : World) (s : State) (n : Nat) :
    (next_selector w1 s = next_selector w2 s →
      (fetch_https_client_method cfg w1 s).vars = (fetch_https_client_method cfg w2 s).vars ∧
        (fetch_https_client_method cfg w1 s).scanf_calls =
          (fetch_https_client_method cfg w2 s).scanf_calls) ∧
    (∀ s2, https_client_task cfg w1 n s = TaskOutcome.looping s2 →
      https_client_task cfg w1 (n + 1) s =
        TaskOutcome.looping (fetch_https_client_method cfg w1 s2)) ∧
    reads (command_loop cfg w1 n s).trace = reads s.trace + n := by
  refine ⟨?_, ?_, ?_⟩
  · intro h
    exact ⟨by rw [fetch_vars, fetch_vars, h], by rw [fetch_scanf_calls, fetch_scanf_calls]⟩
  · intro s2 h
    rcases hw : wifi_connect cfg w1 s with ⟨r, s1⟩ | s1 | _
    · rw [task_after_join cfg w1 n s r s1 hw] at h
      rw [task_after_join cfg w1 (n + 1) s r s1 hw]
      split_ifs at h ⊢ with h1 h2 h3
      simp only [TaskOutcome.looping.injEq] at h
      rw [command_loop_succ, h]
    · simp [https_client_task, hw] at h
    · simp [https_client_task, hw] at h
  · unfold reads
    rw [command_loop_milestones]
    simp

/-- Instance of C15: the operator enters 3; in the first world the header serialisation
fails with code 7, in the second the request succeeds. -/
theorem request_failure_recoverable_witness :
    (fetch_https_client_method (sample_config 5)
        { sample_world (fun _ => 0) (fun _ => 3) with
          cy_http_client_write_header := fun _ => (7, 0) } State.init).vars =
      (fetch_https_client_method (sample_config 5)
        (sample_world (fun _ => 0) (fun _ => 3)) State.init).vars ∧
    (fetch_https_client_method (sample_config 5)
        { sample_world (fun _ => 0) (fun _ => 3) with
          cy_http_client_write_header := fun _ => (7, 0) } State.init).scanf_calls =
      (fetch_https_client_method (sample_config 5)
        (sample_world (fun _ => 0) (fun _ => 3)) State.init).scanf_calls :=
  (request_failure_recoverable (sample_config 5)
    { sample_world (fun _ => 0) (fun _ => 3) with
      cy_http_client_write_header := fun _ => (7, 0) }
    (sample_world (fun _ => 0) (fun _ => 3)) State.init 0).1 (by decide)

/-- C16: for every handle, disconnect type and argument, `disconnect_callback_handler`
leaves the file-scope variables, among them `get_after_put_flag`, `http_client_method`
and `https_client`, unchanged and makes no transport call; the round that follows it
makes the very transport calls, on the same handle, and leaves the very variables that
it would have without the notification. -/
theorem disconnect_callback_frame (cfg : Config) (w : World) (handle : cy_http_client_t)
    (type args : Nat) (s : State) :
    (disconnect_callback_handler handle type args s).vars = s.vars ∧
    (disconnect_callback_handler handle type args s).vars.get_after_put_flag =
      s.vars.get_after_put_flag ∧
    (disconnect_callback_handler handle type args s).vars.http_client_method =
      s.vars.http_client_method ∧
    (disconnect_callback_handler handle type args s).vars.https_client =
      s.vars.https_client ∧
    transport_calls (disconnect_callback_handler handle type args s).trace =
      transport_calls s.trace ∧
    (fetch_https_client_method cfg w (disconnect_callback_handler handle type args s)).vars =
      (fetch_https_client_method cfg w s).vars ∧
    transport_calls
        (fetch_https_client_method cfg w
          (disconnect_callback_handler handle type args s)).trace =
      transport_calls (fetch_https_client_method cfg w s).trace ∧
    transport_calls
        (fetch_https_client_method cfg w
          (disconnect_callback_handler handle type args s)).trace =
      transport_calls s.trace ++
        iteration_calls cfg (next_selector w s)
          (w.cy_http_client_write_header s.write_header_calls) s.vars := by
  have ht : transport_calls (disconnect_callback_handler handle type args s).trace =
      transport_calls s.trace := by
    simp [disconnect_callback_handler, transport_calls_emit, Call.is_transport, -emit_trace]
  have hcalls : transport_calls
        (fetch_https_client_method cfg w
          (disconnect_callback_handler handle type args s)).trace =
      transport_calls s.trace ++
        iteration_calls cfg (next_selector w s)
          (w.cy_http_client_write_header s.write_header_calls) s.vars := by
    rw [fetch_transport_calls, ht]
    rfl
  refine ⟨rfl, rfl, rfl, rfl, ht, ?_, ?_, hcalls⟩
  · rw [fetch_vars, fetch_vars]
    rfl
  · rw [hcalls, fetch_transport_calls]

/-- C18: the dispatch does not depend on what the console read returns: two worlds in
which the selector variable holds the same byte after the read and the header
serialisation answers the same make the same transport calls in the round and leave
the same variables, whatever the read returns in either; in particular a read that
does not return 1 is followed by the transport calls of the selector the variable
holds. -/
theorem failed_read_still_dispatches (cfg : Config) (w1 w2 : World) (s : State)
    (hsel : next_selector w1 s = next_selector w2 s)
    (hwritten : w1.cy_http_client_write_header s.write_header_calls =
      w2.cy_http_client_write_header s.write_header_calls) :
    transport_calls (fetch_https_client_method cfg w1 s).trace =
      transport_calls (fetch_https_client_method cfg w2 s).trace ∧
    (fetch_https_client_method cfg w1 s).vars = (fetch_https_client_method cfg w2 s).vars ∧
    transport_calls (fetch_https_client_method cfg w1 s).trace =
      transport_calls s.trace ++
        iteration_calls cfg (next_selector w1 s)
          (w1.cy_http_client_write_header s.write_header_calls) s.vars := by
  refine ⟨?_, ?_, fetch_transport_calls cfg w1 s⟩
  · rw [fetch_transport_calls, fetch_transport_calls, hsel, hwritten]
  · rw [fetch_vars, fetch_vars, hsel]

/-- Instance of C18: the read returns -1 (end of input) while the variable holds 3;
the round makes the transport calls of a successful read of 3, two of them. -/
theorem failed_read_still_dispatches_witness :
    next_uart_result (failed_read_world (-1) (fun _ => 3)) State.init ≠ UART_RESULT_SUCCESS ∧
    next_uart_result (sample_world (fun _ => 0) (fun _ => 3)) State.init =
      UART_RESULT_SUCCESS ∧
    transport_calls (fetch_https_client_method (sample_config 5)
        (failed_read_world (-1) (fun _ => 3)) State.init).trace =
      transport_calls (fetch_https_client_method (sample_config 5)
        (sample_world (fun _ => 0) (fun _ => 3)) State.init).trace ∧
    (transport_calls (fetch_https_client_method (sample_config 5)
        (failed_read_world (-1) (fun _ => 3)) State.init).trace).length = 2 :=
  ⟨by decide, by decide,
   (failed_read_still_dispatches (sample_config 5) (failed_read_world (-1) (fun _ => 3))
      (sample_world (fun _ => 0) (fun _ => 3)) State.init (by decide) rfl).1,
   by decide⟩

/-! ## The flag at the top of the loop -/

/-- C17: when the task starts with `get_after_put_flag` false (its static initial
value) and is in the command loop after `n` rounds, for any `n`, any selectors and any
transport outcomes, the flag is false at the top of the loop.  So the path of the next
request depends on the current selector only: `HTTP_PATH` for 1, 2 and 3,
`HTTP_GET_PATH_AFTER_PUT` for 4; a plain GET right after a PUT goes to `HTTP_PATH`. -/
theorem flag_false_at_loop_top (cfg : Config) (w : World) (n : Nat) (s s2 : State)
    (h0 : s.vars.get_after_put_flag = false)
    (hrun : https_client_task cfg w n s = TaskOutcome.looping s2) :
    s2.vars.get_after_put_flag = false ∧
    requests (fetch_https_client_method cfg w s2).trace =
      requests s2.trace ++
        (if next_selector w s2 = 1 then [(CY_HTTP_CLIENT_METHOD_GET, cfg.HTTP_PATH)]
         else if next_selector w s2 = 2 then [(CY_HTTP_CLIENT_METHOD_POST, cfg.HTTP_PATH)]
         else if next_selector w s2 = 3 then [(CY_HTTP_CLIENT_METHOD_PUT, cfg.HTTP_PATH)]
         else if next_selector w s2 = 4 then
           [(CY_HTTP_CLIENT_METHOD_GET, cfg.HTTP_GET_PATH_AFTER_PUT)]
         else []) ∧
    (next_selector w s2 = 3 → next_selector w (fetch_https_client_method cfg w s2) = 1 →
      requests (fetch_https_client_method cfg w
          (fetch_https_client_method cfg w s2)).trace =
        requests s2.trace ++ [(CY_HTTP_CLIENT_METHOD_PUT, cfg.HTTP_PATH),
          (CY_HTTP_CLIENT_METHOD_GET, cfg.HTTP_PATH)]) := by
  have hflag : s2.vars.get_after_put_flag = false := by
    rcases hw : wifi_connect cfg w s with ⟨r, s1⟩ | s1 | _
    · obtain ⟨_, _, hf⟩ := wifi_connect_frame cfg w s r s1 hw
      obtain ⟨_, _, hcf⟩ := configure_https_client_frame cfg w s1
      rw [task_after_join cfg w n s r s1 hw] at hrun
      split_ifs at hrun with h1 h2 h3
      simp only [TaskOutcome.looping.injEq] at hrun
      subst hrun
      apply command_loop_flag_false
      simp [hcf, hf, h0]
    · simp [https_client_task, hw] at hrun
    · simp [https_client_task, hw] at hrun
  refine ⟨hflag, ?_, ?_⟩
  · rw [fetch_requests]
    simp [hflag]
  · intro h3 h1
    rw [fetch_requests cfg w (fetch_https_client_method cfg w s2), fetch_requests cfg w s2]
    simp [h3, h1, hflag, fetch_flag_false cfg w s2 hflag]

/-- Instance of C17: from the initial state the join, the configuration and the connect
succeed and the operator enters 3, 4, 3; the flag is false at the top of the loop. -/
theorem flag_false_at_loop_top_witness :
    ∃ s2, https_client_task (sample_config 5)
        (sample_world (fun _ => 0) (fun i => if i = 1 then 4 else 3)) 3 State.init =
        TaskOutcome.looping s2 ∧
      s2.vars.get_after_put_flag = false :=
  ⟨_, rfl, (flag_false_at_loop_top (sample_config 5)
    (sample_world (fun _ => 0) (fun i => if i = 1 then 4 else 3)) 3 State.init _ rfl rfl).1⟩

/-- The flag is false at the top of the command loop of a task that started with the
flag false, after any number of rounds. -/
theorem task_loop_top_flag_false (cfg : Config) (w : World) (n : Nat) (s s2 : State)
    (h0 : s.vars.get_after_put_flag = false)
    (hrun : https_client_task cfg w n s = TaskOutcome.looping s2) :
    s2.vars.get_after_put_flag = false := by
  rcases hw : wifi_connect cfg w s with ⟨r, s1⟩ | s1 | _
  · obtain ⟨_, _, hf⟩ := wifi_connect_frame cfg w s r s1 hw
    obtain ⟨_, _, hcf⟩ := configure_https_client_frame cfg w s1
    rw [task_after_join cfg w n s r s1 hw] at hrun
    split_ifs at hrun with h1 h2 h3
    simp only [TaskOutcome.looping.injEq] at hrun
    subst hrun
    apply command_loop_flag_false
    simp [hcf, hf, h0]
  · simp [https_client_task, hw] at hrun
  · simp [https_client_task, hw] at hrun

/-- C6: in every round of the running command loop (the task started with the flag at
its initial value false and is at the top of the loop after any number of rounds, with
any selectors and transport outcomes before), a selector 1, 2 or 3 (GET, POST, PUT)
sends exactly one request, with the method of the selector, to `HTTP_PATH`, and the
flag after the round equals the flag before it, for PUT as for GET and POST. -/
theorem plain_dispatch_keeps_flag (cfg : Config) (w : World) (n : Nat) (s s2 : State)
    (method : cy_http_client_method_t)
    (h0 : s.vars.get_after_put_flag = false)
    (hrun : https_client_task cfg w n s = TaskOutcome.looping s2)
    (hsel : (next_selector w s2 = 1 ∧ method = CY_HTTP_CLIENT_METHOD_GET) ∨
      (next_selector w s2 = 2 ∧ method = CY_HTTP_CLIENT_METHOD_POST) ∨
      (next_selector w s2 = 3 ∧ method = CY_HTTP_CLIENT_METHOD_PUT)) :
    requests (fetch_https_client_method cfg w s2).trace =
      requests s2.trace ++ [(method, cfg.HTTP_PATH)] ∧
    (fetch_https_client_method cfg w s2).vars.get_after_put_flag =
      s2.vars.get_after_put_flag :=
  (plain_dispatch_flag cfg w s2 method hsel).1
    (task_loop_top_flag_false cfg w n s s2 h0 hrun)

/-- Instance of C6: from the initial state the join, the configuration and the connect
succeed, the operator enters 4 and 3, and then 1: the GET goes to the default path
and the flag is as before. -/
theorem plain_dispatch_keeps_flag_witness :
    ∃ s2, https_client_task (sample_config 5)
        (sample_world (fun _ => 0) (fun i => if i = 2 then 1 else 4 - i)) 2 State.init =
        TaskOutcome.looping s2 ∧
      requests (fetch_https_client_method (sample_config 5)
          (sample_world (fun _ => 0) (fun i => if i = 2 then 1 else 4 - i)) s2).trace =
        requests s2.trace ++ [(CY_HTTP_CLIENT_METHOD_GET, (sample_config 5).HTTP_PATH)] ∧
      (fetch_https_client_method (sample_config 5)
          (sample_world (fun _ => 0) (fun i => if i = 2 then 1 else 4 - i))
          s2).vars.get_after_put_flag = s2.vars.get_after_put_flag :=
  ⟨_, rfl, plain_dispatch_keeps_flag (sample_config 5)
    (sample_world (fun _ => 0) (fun i => if i = 2 then 1 else 4 - i)) 2 State.init _
    CY_HTTP_CLIENT_METHOD_GET rfl rfl (Or.inl ⟨by decide, rfl⟩)⟩

end HttpsClient
